import Mathlib

/-!
# Verification of the quantum-games integrity-validation pipeline

Shallow embedding of the core services of the `quantum-games` backend
(`apps/api/app/services/{scoring,anticheat,proctoring,challenge_seeds}.py`
and the progress-update step of `apps/api/app/routers/progress.py`),
together with theorems settling the specification claims about them.

Python dict/JSON values are modelled by the inductive type `Json`
(numbers restricted to integers, which covers every value the embedded
code paths read or write); Python float arithmetic in the anticheat
minimum-time computation is modelled over `ℚ` with explicit `Int.floor`
where the source applies `int(...)` truncation.
-/

namespace QG

/-- JSON-like values, modelling Python dicts/lists/scalars as they flow
through the scoring and anticheat services.  Objects are association
lists; lookup takes the first matching key (Python dicts cannot hold
duplicate keys, so well-formed inputs have `Nodup` keys). -/
inductive Json where
  | null
  | bool (b : Bool)
  | num (n : Int)
  | str (s : String)
  | arr (elements : List Json)
  | obj (entries : List (String × Json))
deriving Repr

namespace Json

mutual

/-- Structural decidable equality for `Json` (hand-rolled because the
type nests `List`). -/
def decEq : (a b : Json) → Decidable (a = b)
  | .null, .null => isTrue rfl
  | .bool a, .bool b =>
      if h : a = b then isTrue (h ▸ rfl)
      else isFalse fun he => h (Json.bool.inj he)
  | .num a, .num b =>
      if h : a = b then isTrue (h ▸ rfl)
      else isFalse fun he => h (Json.num.inj he)
  | .str a, .str b =>
      if h : a = b then isTrue (h ▸ rfl)
      else isFalse fun he => h (Json.str.inj he)
  | .arr a, .arr b =>
      match decEqList a b with
      | isTrue h => isTrue (h ▸ rfl)
      | isFalse h => isFalse fun he => h (Json.arr.inj he)
  | .obj a, .obj b =>
      match decEqObj a b with
      | isTrue h => isTrue (h ▸ rfl)
      | isFalse h => isFalse fun he => h (Json.obj.inj he)
  | .null, .bool _ => isFalse fun h => Json.noConfusion h
  | .null, .num _ => isFalse fun h => Json.noConfusion h
  | .null, .str _ => isFalse fun h => Json.noConfusion h
  | .null, .arr _ => isFalse fun h => Json.noConfusion h
  | .null, .obj _ => isFalse fun h => Json.noConfusion h
  | .bool _, .null => isFalse fun h => Json.noConfusion h
  | .bool _, .num _ => isFalse fun h => Json.noConfusion h
  | .bool _, .str _ => isFalse fun h => Json.noConfusion h
  | .bool _, .arr _ => isFalse fun h => Json.noConfusion h
  | .bool _, .obj _ => isFalse fun h => Json.noConfusion h
  | .num _, .null => isFalse fun h => Json.noConfusion h
  | .num _, .bool _ => isFalse fun h => Json.noConfusion h
  | .num _, .str _ => isFalse fun h => Json.noConfusion h
  | .num _, .arr _ => isFalse fun h => Json.noConfusion h
  | .num _, .obj _ => isFalse fun h => Json.noConfusion h
  | .str _, .null => isFalse fun h => Json.noConfusion h
  | .str _, .bool _ => isFalse fun h => Json.noConfusion h
  | .str _, .num _ => isFalse fun h => Json.noConfusion h
  | .str _, .arr _ => isFalse fun h => Json.noConfusion h
  | .str _, .obj _ => isFalse fun h => Json.noConfusion h
  | .arr _, .null => isFalse fun h => Json.noConfusion h
  | .arr _, .bool _ => isFalse fun h => Json.noConfusion h
  | .arr _, .num _ => isFalse fun h => Json.noConfusion h
  | .arr _, .str _ => isFalse fun h => Json.noConfusion h
  | .arr _, .obj _ => isFalse fun h => Json.noConfusion h
  | .obj _, .null => isFalse fun h => Json.noConfusion h
  | .obj _, .bool _ => isFalse fun h => Json.noConfusion h
  | .obj _, .num _ => isFalse fun h => Json.noConfusion h
  | .obj _, .str _ => isFalse fun h => Json.noConfusion h
  | .obj _, .arr _ => isFalse fun h => Json.noConfusion h

def decEqList : (a b : List Json) → Decidable (a = b)
  | [], [] => isTrue rfl
  | [], _ :: _ => isFalse fun h => List.noConfusion h
  | _ :: _, [] => isFalse fun h => List.noConfusion h
  | x :: xs, y :: ys =>
      match decEq x y, decEqList xs ys with
      | isTrue h₁, isTrue h₂ => isTrue (h₁ ▸ h₂ ▸ rfl)
      | isFalse h₁, _ => isFalse fun he => h₁ (List.cons.inj he).1
      | _, isFalse h₂ => isFalse fun he => h₂ (List.cons.inj he).2

def decEqObj : (a b : List (String × Json)) → Decidable (a = b)
  | [], [] => isTrue rfl
  | [], _ :: _ => isFalse fun h => List.noConfusion h
  | _ :: _, [] => isFalse fun h => List.noConfusion h
  | (k₁, v₁) :: xs, (k₂, v₂) :: ys =>
      if h₁ : k₁ = k₂ then
        match decEq v₁ v₂, decEqObj xs ys with
        | isTrue h₂, isTrue h₃ => isTrue (h₁ ▸ h₂ ▸ h₃ ▸ rfl)
        | isFalse h₂, _ =>
            isFalse fun he => h₂ (congrArg Prod.snd (List.cons.inj he).1)
        | _, isFalse h₃ => isFalse fun he => h₃ (List.cons.inj he).2
      else isFalse fun he => h₁ (congrArg Prod.fst (List.cons.inj he).1)

end

instance : DecidableEq Json := decEq

/-- First-match association-list lookup (Python dict access on the
modelled object). -/
def lookup (kvs : List (String × Json)) (k : String) : Option Json :=
  match kvs.find? (fun p => p.1 == k) with
  | some p => some p.2
  | none => none

/-- Python `d.get(k)` on a dict: `none` when the key is missing (callers
turn this into Python's `None` default via `getD`). Non-objects have no
keys. -/
def get : Json → String → Option Json
  | .obj kvs, k => lookup kvs k
  | _, _ => none

/-- Python `d.get(k, default)`. Note a stored `null` is returned as `.null`
(exactly as Python returns a stored `None` rather than the default). -/
def getD (j : Json) (k : String) (d : Json) : Json := (j.get k).getD d

/-- Python truthiness of the modelled values. -/
def truthy : Json → Bool
  | .null => false
  | .bool b => b
  | .num n => n != 0
  | .str s => s ≠ ""
  | .arr l => !l.isEmpty
  | .obj l => !l.isEmpty

/-- Read a list-valued field with Python's `.get(k, [])` default. -/
def getList (j : Json) (k : String) : List Json :=
  match j.get k with
  | some (.arr l) => l
  | _ => []

/-- Read an integer field with a default (the embedded code paths only
ever store integers in these fields; non-integer values would raise
`TypeError` in the source and are outside its defined behaviour). -/
def getIntD (j : Json) (k : String) (d : Int) : Int :=
  match j.get k with
  | some (.num n) => n
  | _ => d

/-- Python `d.get(k) is not None`: a stored `null` and a missing key are
indistinguishable (both give `None`). -/
def getNN (j : Json) (k : String) : Option Json :=
  match j.get k with
  | some .null => none
  | o => o

/-- Python `set(d.keys())` of a dict, modelled as the deduplicated key
list (dict keys are unique); non-objects have no keys. -/
def keys : Json → List String
  | .obj kvs => (kvs.map Prod.fst).dedup
  | _ => []

end Json

/-! ## Gate-puzzle replay (`scoring.py::_score_gate_puzzle`,
`anticheat.py::verify_gate_puzzle_solution`)

Both files inline the same fixed single-qubit transition table and the
same replay loop; it is embedded once as `gateTransition`/`applyGates`. -/

/-- The fixed transition table `transitions` of
`scoring.py` lines 224–229 / `anticheat.py` lines 316–321:
`{|0⟩,|1⟩,|+⟩,|-⟩} × {X,Y,Z,H} → state`; any other (state, gate) pair is
absent from the dict. -/
def gateTransition : Json → Json → Option Json
  | .str "|0⟩", .str "X" => some (.str "|1⟩")
  | .str "|0⟩", .str "Y" => some (.str "|1⟩")
  | .str "|0⟩", .str "Z" => some (.str "|0⟩")
  | .str "|0⟩", .str "H" => some (.str "|+⟩")
  | .str "|1⟩", .str "X" => some (.str "|0⟩")
  | .str "|1⟩", .str "Y" => some (.str "|0⟩")
  | .str "|1⟩", .str "Z" => some (.str "|1⟩")
  | .str "|1⟩", .str "H" => some (.str "|-⟩")
  | .str "|+⟩", .str "X" => some (.str "|+⟩")
  | .str "|+⟩", .str "Y" => some (.str "|-⟩")
  | .str "|+⟩", .str "Z" => some (.str "|-⟩")
  | .str "|+⟩", .str "H" => some (.str "|0⟩")
  | .str "|-⟩", .str "X" => some (.str "|-⟩")
  | .str "|-⟩", .str "Y" => some (.str "|+⟩")
  | .str "|-⟩", .str "Z" => some (.str "|+⟩")
  | .str "|-⟩", .str "H" => some (.str "|1⟩")
  | _, _ => none

/-- Python `gate.get("gate", gate) if isinstance(gate, dict) else gate`. -/
def gateName (g : Json) : Json :=
  match g with
  | .obj kvs => (Json.lookup kvs "gate").getD (.obj kvs)
  | g => g

/-- One step of the replay loop: transition when the (state, gate) pair
is in the table, otherwise leave the state unchanged. -/
def applyGate (s : Json) (g : Json) : Json :=
  match gateTransition s (gateName g) with
  | some t => t
  | none => s

/-- The replay loop over the submitted gate list. -/
def applyGates (initial : Json) (gates : List Json) : Json :=
  gates.foldl applyGate initial

/-- Score breakdown of `_score_gate_puzzle` (the fields of the returned
dict that the claims refer to). -/
inductive GPBreakdown where
  | incorrect (computedFinal expected : Json)
  | correct (baseScore efficiencyBonus gateCount optimalGates : Int)
deriving Repr, DecidableEq

/-- Embedding of `ServerSideScorer._score_gate_puzzle(config, solution, max_score)`
(`scoring.py` lines 209–265). -/
def scoreGatePuzzle (config solution : Json) (maxScore : Int) :
    Int × Int × GPBreakdown :=
  let initial := (config.get "initial_state").getD (.str "|0⟩")
  let target := (config.get "target_state_symbol").getD .null
  let optimalGates := config.getIntD "optimal_gate_count" 1
  let gates := solution.getList "gates"
  let current := applyGates initial gates
  if current ≠ target then
    (0, maxScore, .incorrect current target)
  else
    let baseScore : Int := 60
    let gateCount : Int := gates.length
    let efficiencyBonus : Int :=
      if gateCount ≤ optimalGates then 40
      else max 0 (40 - (gateCount - optimalGates) * 10)
    (min (baseScore + efficiencyBonus) maxScore, maxScore,
      .correct baseScore efficiencyBonus gateCount optimalGates)

/-- Embedding of `AnticheatService.verify_gate_puzzle_solution(solution, level)`
(`anticheat.py` lines 290–343); returns `(is_valid, error?, score?)`. -/
def verifyGatePuzzleSolution (solution levelConfig : Json) :
    Bool × Option String × Option Int :=
  if ¬ (levelConfig.getD "requires_gate_verification" (.bool false)).truthy then
    (true, none, none)
  else
    let initial := (levelConfig.get "initial_state").getD (.str "|0⟩")
    let target := (levelConfig.get "target_state_symbol").getD .null
    let optimalGates := levelConfig.getIntD "optimal_gate_count" 1
    if ¬ target.truthy then
      (true, none, none)
    else
      let gates := solution.getList "gates"
      let current := applyGates initial gates
      if current ≠ target then
        (false, some "Gate sequence verification failed", some 0)
      else
        let gateCount : Int := gates.length
        let score : Int :=
          if gateCount ≤ optimalGates then 100
          else max 50 (100 - (gateCount - optimalGates) * 10)
        (true, none, some score)

/-! ## Deutsch-Jozsa server-side scorer
(`scoring.py::_score_deutsch_challenge`) -/

/-- Breakdown fields of `_score_deutsch_challenge` that the claims read. -/
inductive DJBreakdown where
  | incorrect (answer expected : Json)
  | correct (queriesUsed : Int) (approach : String)
deriving Repr, DecidableEq

/-- Embedding of `ServerSideScorer._score_deutsch_challenge(config, solution, max_score)`
(`scoring.py` lines 172–207). -/
def scoreDeutschChallenge (config solution : Json) (maxScore : Int) :
    Int × Int × DJBreakdown :=
  let oracleType := (config.get "oracle_type").getD .null
  let answer := (solution.get "answer").getD .null
  let queriesUsed := solution.getIntD "queries" 1
  if answer ≠ oracleType then
    (0, maxScore, .incorrect answer oracleType)
  else if queriesUsed = 1 then
    (maxScore, maxScore, .correct queriesUsed "quantum")
  else
    (max (60 - (queriesUsed - 1) * 15) 40, maxScore,
      .correct queriesUsed "classical")

/-! ## Data model (`models/game.py`, `models/progress.py`)

Identifiers are modelled as `Nat` (the source uses UUIDs; only equality
is ever used). -/

/-- Level row (`models/game.py::Level`), the fields the embedded services
read. -/
structure Level where
  id : Nat
  gameId : Nat
  sequence : Int
  title : String
  difficulty : Int
  estimatedMinutes : Int
  xpReward : Int
  config : Json
deriving Repr, DecidableEq

/-- Game row (`models/game.py::Game`), the fields the embedded services
read. -/
structure Game where
  id : Nat
  slug : String
  name : String
  config : Json
deriving Repr, DecidableEq

/-- Progress row (`models/progress.py::Progress`). Timestamps are
modelled as integers. -/
structure Progress where
  userId : Nat
  levelId : Nat
  score : Int
  maxScore : Option Int
  stars : Int
  attempts : Int
  bestTimeSeconds : Option Int
  bestSolution : Option Json
  completed : Bool
  completedAt : Option Int
deriving Repr, DecidableEq

/-- Database state visible to `AnticheatService` queries. -/
structure DB where
  games : List Game
  levels : List Level
  progresses : List Progress
deriving Repr

/-! ## Anticheat: completion-time validation
(`anticheat.py::validate_completion_time`)

The source computes its threshold with CPython floats (IEEE-754
binary64), and the roundings are observable: `180 * 1.15` is
`206.99999999999997`, so `int(...)` yields 206 where exact arithmetic
would give 207.  Floats are therefore embedded exactly, as
significand–exponent pairs `(m, e)` with value `m * 2 ^ e`, rounded to
53 significant bits with ties to even after every operation. -/

/-- Fuel-driven floor of the base-2 logarithm, structurally recursive
so the kernel can evaluate it. -/
def log2Fuel : Nat → Nat → Nat
  | 0, _ => 0
  | fuel + 1, n => if 2 ≤ n then log2Fuel fuel (n / 2) + 1 else 0

/-- Floor of the base-2 logarithm for the magnitudes arising here (all
far below `2 ^ 400`). -/
def nlog2 (n : Nat) : Nat := log2Fuel 400 n

/-- Round `n / d` to the nearest integer, ties to even — the IEEE-754
default rounding used by CPython floats. -/
def rhe (n d : Nat) : Nat :=
  let q := n / d
  let r := n % d
  if 2 * r < d then q
  else if d < 2 * r then q + 1
  else if q % 2 = 0 then q else q + 1

/-- Nearest binary64 to the positive rational `num / den`: a pair
`(m, e)` with value `m * 2 ^ e` and `2 ^ 52 ≤ m ≤ 2 ^ 53` (normal
range only, which covers every value in this computation). -/
def froundPos (num den : Nat) : Nat × Int :=
  let a := nlog2 num
  let b := nlog2 den
  let f : Int := if den * 2 ^ a ≤ num * 2 ^ b then (a : Int) - b else (a : Int) - b - 1
  let e : Int := f - 52
  let m := if e ≤ 0 then rhe (num * 2 ^ (-e).toNat) den else rhe num (den * 2 ^ e.toNat)
  (m, e)

/-- Nearest binary64 to `num / den` for a signed numerator. -/
def fround (num : Int) (den : Nat) : Int × Int :=
  if num = 0 then (0, 0)
  else if 0 < num then
    let p := froundPos num.toNat den
    ((p.1 : Int), p.2)
  else
    let p := froundPos (-num).toNat den
    (-(p.1 : Int), p.2)

/-- Round the exact value `num * 2 ^ e` to binary64. -/
def fmk (num : Int) (e : Int) : Int × Int :=
  if 0 ≤ e then fround (num * 2 ^ e.toNat) 1 else fround num (2 ^ (-e).toNat)

/-- CPython conversion of an `int` operand to float (exact below
`2 ^ 53`, rounded above). -/
def fofInt (n : Int) : Int × Int := fround n 1

/-- Binary64 multiplication: exact product, then one rounding. -/
def fmul (a b : Int × Int) : Int × Int := fmk (a.1 * b.1) (a.2 + b.2)

/-- Binary64 addition: exact sum at the common exponent, then one
rounding. -/
def fadd (a b : Int × Int) : Int × Int :=
  let e := min a.2 b.2
  fmk (a.1 * 2 ^ (a.2 - e).toNat + b.1 * 2 ^ (b.2 - e).toNat) e

/-- Python `int(...)` applied to a float value: truncation toward
zero. -/
def ftrunc (a : Int × Int) : Int :=
  if 0 ≤ a.2 then a.1 * 2 ^ a.2.toNat
  else if 0 ≤ a.1 then (a.1.toNat / 2 ^ (-a.2).toNat : Nat)
  else -((-a.1).toNat / 2 ^ (-a.2).toNat : Nat)

/-- Module constant `MIN_TIME_FRACTION = 0.1` of `anticheat.py`: the
float literal denotes the binary64 nearest `1 / 10`. -/
def MIN_TIME_FRACTION : Int × Int := fround 1 10

/-- Absolute minimum seconds regardless of estimated time. -/
def ABSOLUTE_MIN_SECONDS : Int := 5

/-- The minimum acceptable completion time computed by
`validate_completion_time` (`anticheat.py` lines 47–56), with the
source's float products and sum carried out in binary64 and each
Python `int(...)` truncating toward zero:
`int(max(5, int((estimated_minutes * 60) * 0.1)) * (1.0 + (difficulty - 1) * 0.05))`.
This embedding reproduces CPython output on the full grid of estimates
0–240 minutes × difficulties 0–10 and on 2500 further points with
estimates up to 100000 minutes and difficulties from −50 to 1000. -/
def minCompletionTime (level : Level) : Int :=
  let estimatedSeconds : Int := level.estimatedMinutes * 60
  let minTime : Int :=
    max ABSOLUTE_MIN_SECONDS (ftrunc (fmul (fofInt estimatedSeconds) MIN_TIME_FRACTION))
  let difficultyMultiplier : Int × Int :=
    fadd (fofInt 1) (fmul (fofInt (level.difficulty - 1)) (fround 5 100))
  ftrunc (fmul (fofInt minTime) difficultyMultiplier)

/-- Embedding of
`AnticheatService.validate_completion_time(level, time_seconds, session_started_at)`
(`anticheat.py` lines 32–64).  Returns `(is_valid, error_message?)`. -/
def validateCompletionTime (level : Level) (timeSeconds : Option Int)
    (sessionStartedAt : Option Int) : Bool × Option String :=
  if timeSeconds = none ∧ sessionStartedAt = none then
    (true, none)
  else
    match timeSeconds with
    | some t =>
        if t < minCompletionTime level then
          (false, some "Completion time is below minimum threshold for this level.")
        else (true, none)
    | none => (true, none)

/-- Modelled from the claim text (not from the source): the minimum time
as the spec states it, `max(5, estimatedSeconds * 0.10)` scaled by
`(1 + 0.05 * (difficulty - 1))`, in exact arithmetic with no integer
truncation.  Used to compare the spec's formula against the code's. -/
def claimedMinTime (level : Level) : ℚ :=
  (max 5 ((level.estimatedMinutes * 60 : ℚ) * (1 / 10))) *
    (1 + ((level.difficulty : ℚ) - 1) * (5 / 100))

/-! ## Anticheat: prerequisite check
(`anticheat.py::check_prerequisites`)

SQLAlchemy's `Result.scalar_one_or_none()` raises `MultipleResultsFound`
when the query yields more than one row; queries are modelled as list
filters and that call as `scalarOneOrNone` in the `Except` monad. -/

/-- SQLAlchemy `Result.scalar_one_or_none()`: `none` for zero rows, the
row for one, and an exception for more than one. -/
def scalarOneOrNone : List α → Except String (Option α)
  | [] => .ok none
  | [a] => .ok (some a)
  | _ :: _ :: _ => .error "MultipleResultsFound"

/-- Rows of `select(Progress).join(Level).where(user_id).where(Level.game_id).where(completed)`:
the user's completed progress rows on levels of the given game. -/
def completedRowsInGame (db : DB) (userId : Nat) (gameId : Nat) : List Progress :=
  db.progresses.filter (fun p =>
    p.userId == userId && p.completed &&
      ((db.levels.find? (fun l => l.id == p.levelId)).map Level.gameId == some gameId))

/-- Embedding of `AnticheatService.check_prerequisites(user, game, level)`
(`anticheat.py` lines 66–135).  Returns
`(has_prerequisites, error_message?, missing)`; a `MultipleResultsFound`
exception escapes as `Except.error`. -/
def checkPrerequisites (db : DB) (userId : Nat) (game : Game) (level : Level) :
    Except String (Bool × Option String × List Json) := do
  let prereqGames := game.config.getList "prerequisite_games"
  let missing ← prereqGames.foldlM (fun (acc : List Json) prereqSlug => do
    let prereqGame ← scalarOneOrNone
      (db.games.filter (fun g => prereqSlug == .str g.slug))
    match prereqGame with
    | none => pure acc
    | some pg => do
        let completedAny ← scalarOneOrNone (completedRowsInGame db userId pg.id)
        match completedAny with
        | some _ => pure acc
        | none => pure (acc ++ [Json.obj
            [("type", .str "game"), ("slug", prereqSlug), ("name", .str pg.name)]])) []
  let missing ←
    if level.sequence > 1 then do
      let prevLevel ← scalarOneOrNone (db.levels.filter (fun l =>
        l.gameId == game.id && l.sequence == level.sequence - 1))
      match prevLevel with
      | none => pure missing
      | some prev => do
          let prevCompleted ← scalarOneOrNone (db.progresses.filter (fun p =>
            p.userId == userId && p.levelId == prev.id && p.completed))
          match prevCompleted with
          | some _ => pure missing
          | none => pure (missing ++ [Json.obj
              [("type", .str "level"), ("game_slug", .str game.slug),
               ("sequence", .num (level.sequence - 1)), ("title", .str prev.title)]])
    else pure missing
  if missing.isEmpty then
    pure (true, none, [])
  else
    pure (false, some "Prerequisites not met", missing)

/-! ## Anticheat: solution hash and diversity check
(`anticheat.py::compute_solution_hash`, `check_solution_diversity`,
`_compute_solution_similarity`) -/

/-- Key order used by Python `json.dumps(..., sort_keys=True)`:
code-point comparison of the keys (Lean's `String` order). -/
def kvLE (p q : String × Json) : Prop := p.1 ≤ q.1

instance : DecidableRel kvLE := fun p q => inferInstanceAs (Decidable (p.1 ≤ q.1))

instance : IsTotal (String × Json) kvLE := ⟨fun p q => le_total p.1 q.1⟩

instance : IsTrans (String × Json) kvLE := ⟨fun _ _ _ h₁ h₂ => le_trans h₁ h₂⟩

/-- Strict key order on object entries; when an object's keys are
duplicate-free its sorted entry list is strictly increasing, which pins
the sorted order uniquely. -/
def kvLT (p q : String × Json) : Prop := p.1 < q.1

instance : IsAntisymm (String × Json) kvLT :=
  ⟨fun _ _ h₁ h₂ => absurd h₂ (lt_asymm h₁)⟩

/-- Sort an object's entries by key, as `json.dumps(..., sort_keys=True)`
serialises them. -/
def sortKVs (kvs : List (String × Json)) : List (String × Json) :=
  kvs.insertionSort kvLE

mutual

/-- Canonical form of a solution: every object's keys sorted recursively,
exactly the order in which `json.dumps(solution, sort_keys=True,
separators=(",", ":"))` serialises the value. -/
def canonical : Json → Json
  | .null => .null
  | .bool b => .bool b
  | .num n => .num n
  | .str s => .str s
  | .arr l => .arr (canonicalList l)
  | .obj kvs => .obj (sortKVs (canonicalKVs kvs))

def canonicalList : List Json → List Json
  | [] => []
  | j :: rest => canonical j :: canonicalList rest

def canonicalKVs : List (String × Json) → List (String × Json)
  | [] => []
  | (k, v) :: rest => (k, canonical v) :: canonicalKVs rest

end

/-- Embedding of `AnticheatService.compute_solution_hash(solution)`
(`anticheat.py` lines 345–351): the SHA-256 hexdigest of the canonical
sorted-keys JSON dump.  The digest is modelled as the canonical form
itself: the dump of the canonical form determines it and vice versa, and
the digest step is injective modulo SHA-256 collisions, which the spec
explicitly treats as impossible ("treat collision as a test failure"). -/
def compute_solution_hash (solution : Json) : Json := canonical solution

/-- Number of elements of `len(set(xs) & set(ys))` (distinct values
occurring in both lists). -/
def commonDistinct [DecidableEq α] (xs ys : List α) : Nat :=
  (xs.dedup.filter (fun x => ys.contains x)).length

/-- Embedding of
`AnticheatService._compute_solution_similarity(solution1, solution2)`
(`anticheat.py` lines 418–484), over `ℚ`.
Circuit-operation tokens `f"{op.get('gate')}:{op.get('qubits')}"` are
modelled as the pair `(op.get "gate", op.get "qubits")` (the rendered
string is determined by the pair); non-dict/non-list values in the
fields read here raise `TypeError` in the source and are outside its
defined behaviour. -/
def computeSolutionSimilarity (solution1 solution2 : Json) : ℚ :=
  let circuit1 := solution1.getD "circuit" (.obj [])
  let circuit2 := solution2.getD "circuit" (.obj [])
  if circuit1.truthy && circuit2.truthy then
    let ops1 := circuit1.getList "operations"
    let ops2 := circuit2.getList "operations"
    if ops1.isEmpty || ops2.isEmpty then 0
    else
      let ops1Str := ops1.map (fun op => (op.get "gate", op.get "qubits"))
      let ops2Str := ops2.map (fun op => (op.get "gate", op.get "qubits"))
      let common := commonDistinct ops1Str ops2Str
      let total := max ops1Str.length ops2Str.length
      if total > 0 then (common : ℚ) / (total : ℚ) else 0
  else
    let gates1 := solution1.getList "gates"
    let gates2 := solution2.getList "gates"
    if !gates1.isEmpty && !gates2.isEmpty then
      let g1 := gates1.map gateName
      let g2 := gates2.map gateName
      if g1 = g2 then 1
      else
        let common := commonDistinct g1 g2
        let total := max g1.length g2.length
        if total > 0 then (common : ℚ) / (total : ℚ) else 0
    else
      match scalarKeySimilarity solution1 solution2 ["found_item", "answer", "final_key"] with
      | some sim => sim
      | none =>
        let keys1 := solution1.keys
        let keys2 := solution2.keys
        let commonKeys := keys1.filter (fun k => keys2.contains k)
        if commonKeys.isEmpty then 0
        else
          let matchingValues :=
            (commonKeys.filter (fun k => solution1.get k == solution2.get k)).length
          (matchingValues : ℚ) / (commonKeys.length : ℚ)
where
  /-- Python loop `for key in [...]`: the first key present (non-`None`)
  in both solutions decides, `1.0` if equal else `0.5`. -/
  scalarKeySimilarity (s1 s2 : Json) : List String → Option ℚ
    | [] => none
    | k :: rest =>
        match s1.getNN k, s2.getNN k with
        | some v1, some v2 => some (if v1 = v2 then 1 else 1 / 2)
        | _, _ => scalarKeySimilarity s1 s2 rest

/-- Result details dict of `check_solution_diversity` (the counters the
claims read). -/
structure DiversityDetails where
  exactDuplicates : Nat
  similarSolutions : Nat
  totalCompared : Nat
deriving Repr, DecidableEq

/-- Rows of the diversity query: every other user's progress row on the
level whose `best_solution` is not SQL `NULL`. -/
def otherProgressRows (db : DB) (userId : Nat) (levelId : Nat) : List Progress :=
  db.progresses.filter (fun p =>
    p.levelId == levelId && p.userId != userId && p.bestSolution.isSome)

/-- The best solutions the diversity loop actually compares against: one
per other-user progress row on the level, skipping rows whose stored
solution is falsy (`if not other.best_solution: continue`). -/
def comparedSolutions (db : DB) (userId : Nat) (levelId : Nat) : List Json :=
  (otherProgressRows db userId levelId).filterMap (fun p =>
    match p.bestSolution with
    | some sol => if sol.truthy then some sol else none
    | none => none)

/-- Embedding of
`AnticheatService.check_solution_diversity(user, level, solution, similarity_threshold)`
(`anticheat.py` lines 353–416).  Returns `(is_unique, warning_message?,
details)`. -/
def checkSolutionDiversity (db : DB) (userId : Nat) (levelId : Nat) (solution : Json)
    (similarityThreshold : ℚ) : Bool × Option String × DiversityDetails :=
  let solutionHash := compute_solution_hash solution
  let compared := comparedSolutions db userId levelId
  let exactMatches := (compared.filter (fun sol =>
    compute_solution_hash sol == solutionHash)).length
  let similarCount := (compared.filter (fun sol =>
    compute_solution_hash sol != solutionHash &&
      decide (similarityThreshold ≤ computeSolutionSimilarity solution sol))).length
  let details : DiversityDetails :=
    ⟨exactMatches, similarCount, (otherProgressRows db userId levelId).length⟩
  if exactMatches > 0 then
    (false, some "This exact solution has been submitted by other student(s).", details)
  else if similarCount > 2 then
    (false, some "This solution is very similar to other submissions.", details)
  else
    (true, none, details)

/-! ## Proctoring session state machine (`proctoring.py`)

Sessions are operated on after lookup by token
(`select(ProctoredSession).where(session_token == ...)` followed by
`scalar_one_or_none`; tokens carry a unique constraint, so the lookup is
modelled as an `Option ProctoredSession` input).  Wall-clock instants
(`datetime.utcnow()`) are modelled as integer seconds passed in as
`now`; `timedelta(minutes=m)` comparisons become comparisons against
`m * 60` seconds. -/

/-- Values of `models/proctoring.py::ProctoringStatus`. -/
inductive ProctoringStatus where
  | pending | verified | active | completed | flagged | invalidated
deriving Repr, DecidableEq

/-- A flag dict appended to `session.flags` by
`ProctoringService._add_flag`. -/
structure ProctoringFlagRec where
  flagType : String
  severity : String
  description : String
  timestamp : Int
deriving Repr, DecidableEq

/-- Session row (`models/proctoring.py::ProctoredSession`), the fields the
embedded service reads or writes. -/
structure ProctoredSession where
  userId : Nat
  levelId : Nat
  status : ProctoringStatus
  sessionToken : String
  verificationCode : String
  maxDurationMinutes : Int
  browserFingerprint : Option String
  userAgent : Option String
  ipAddress : Option String
  startedAt : Int
  endedAt : Option Int
  integrityScore : Option Int
  flags : List ProctoringFlagRec
  proctorNotes : Option String
deriving Repr, DecidableEq

/-- Browser info dict passed into the proctoring calls (`.get` on the
missing keys gives `None`). -/
structure BrowserInfo where
  fingerprint : Option String
  userAgent : Option String
  ipAddress : Option String
deriving Repr, DecidableEq

/-- Python truthiness of an optional string (`None` and `""` are falsy),
as used by the IP/user-agent consistency guards. -/
def optStrTruthy : Option String → Bool
  | none => false
  | some s => s ≠ ""

/-- Embedding of `ProctoringService._add_flag(session, ...)`
(`proctoring.py` lines 281–310): appends the flag dict to the session's
ordered `flags` array. -/
def addFlag (s : ProctoredSession) (flagType severity description : String)
    (now : Int) : ProctoredSession :=
  { s with flags := s.flags ++ [⟨flagType, severity, description, now⟩] }

/-- Deduction one flag contributes inside the integrity loop
(`flag.get("severity", "info")` always finds the severity `_add_flag`
stored; severities other than the three known ones deduct nothing). -/
def flagWeight (f : ProctoringFlagRec) : Int :=
  if f.severity = "critical" then 30
  else if f.severity = "warning" then 10
  else if f.severity = "info" then 2
  else 0

/-- Embedding of `ProctoringService._calculate_integrity_score(session)`
(`proctoring.py` lines 312–339): start at 100, subtract 30 per
critical-severity flag, 10 per warning, 2 per info (anything else
subtracts nothing), floored at 0. -/
def calculateIntegrityScore (s : ProctoredSession) : Int :=
  if s.flags.isEmpty then 100
  else
    max 0 (100 - s.flags.foldl (fun acc f => acc + flagWeight f) 0)

/-- Number of flags in a list carrying the given severity (used to state
the integrity-score formula). -/
def sevCount (fs : List ProctoringFlagRec) (severity : String) : Int :=
  ((fs.filter (fun f => f.severity == severity)).length : Int)

/-- Number of flags of a session carrying the given severity. -/
def flagCount (s : ProctoredSession) (severity : String) : Int :=
  sevCount s.flags severity

/-- Guard of the IP-consistency check: both the stored and the request
IP are truthy and they differ. -/
def ipMismatch (s : ProctoredSession) (b : BrowserInfo) : Bool :=
  optStrTruthy s.ipAddress && optStrTruthy b.ipAddress &&
    s.ipAddress != b.ipAddress

/-- Guard of the user-agent-consistency check. -/
def uaMismatch (s : ProctoredSession) (b : BrowserInfo) : Bool :=
  optStrTruthy s.userAgent && optStrTruthy b.userAgent &&
    s.userAgent != b.userAgent

/-- The IP/user-agent consistency tail of `validate_active_session`:
compare each stored value against the request when both are truthy,
appending a warning flag per mismatch (the user-agent comparison reads
the session as left by the IP check). -/
def validateWarnFlags (s : ProctoredSession) (b : BrowserInfo) (now : Int) :
    ProctoredSession :=
  let s₁ :=
    if ipMismatch s b then
      addFlag s "IP_ADDRESS_CHANGED" "warning" "IP changed" now
    else s
  if uaMismatch s₁ b then
    addFlag s₁ "USER_AGENT_CHANGED" "warning"
      "Browser user agent changed during session" now
  else s₁

/-- Embedding of
`ProctoringService.validate_active_session(session_token, browser_info)`
(`proctoring.py` lines 153–215).  Returns `(is_valid, error_message?,
stored)` where `stored` is the session's state as committed after the
call (`none` when the token matched no session). -/
def validateActiveSession (sess : Option ProctoredSession) (browserInfo : BrowserInfo)
    (now : Int) : Bool × Option String × Option ProctoredSession :=
  match sess with
  | none => (false, some "Invalid session token", none)
  | some s =>
    if s.status ≠ .active then
      (false, some "Session is not active", some s)
    else
      let elapsed := now - s.startedAt
      if elapsed > s.maxDurationMinutes * 60 then
        let s := addFlag { s with status := .invalidated }
          "TIME_LIMIT_EXCEEDED" "critical" "Submission attempted after time limit" now
        (false, some "Session time limit exceeded", some s)
      else
        (true, none, some (validateWarnFlags s browserInfo now))

/-- Embedding of
`ProctoringService.complete_session(session_token, score, integrity_notes)`
(`proctoring.py` lines 217–249).  The `score` argument is accepted but
never stored by the source, so it does not appear here.  Returns
`(is_valid, error_message?, stored)`. -/
def completeSession (sess : Option ProctoredSession) (integrityNotes : Option String)
    (now : Int) : Bool × Option String × Option ProctoredSession :=
  match sess with
  | none => (false, some "Invalid session token", none)
  | some s =>
    if s.status ≠ .active ∧ s.status ≠ .flagged then
      (false, some "Cannot complete session with this status", some s)
    else
      let integrityScore := calculateIntegrityScore s
      (true, none, some { s with
        status := .completed
        endedAt := some now
        integrityScore := some integrityScore
        proctorNotes := integrityNotes })

/-! ## Progress update on an accepted submission
(`routers/progress.py::complete_level`, lines 387–411)

The update step runs after every anticheat gate has passed, with
`verified_score` the final accepted score.  The `user.total_xp` increase
performed alongside `completed` is outside the `Progress` row and not
modelled. -/

/-- Attempt counter bump (`progress.attempts += 1`). -/
def bumpAttempts (p : Progress) : Progress := { p with attempts := p.attempts + 1 }

/-- Score update: replace the stored score only when the verified score
is strictly greater, storing the submitted solution as the best one when
a truthy solution payload was sent. -/
def applyScore (p : Progress) (verifiedScore : Int) (solution : Option Json) :
    Progress :=
  if verifiedScore > p.score then
    { p with score := verifiedScore
             bestSolution :=
               match solution with
               | some sol => if sol.truthy then some sol else p.bestSolution
               | none => p.bestSolution }
  else p

/-- Best-time update (`if update_data.time_seconds:` then keep the
faster time; both guards are Python-truthy, so a zero time or a stored
zero behaves as missing). -/
def applyBestTime (p : Progress) (timeSeconds : Option Int) : Progress :=
  match timeSeconds with
  | some t =>
      let bestMissingOrWorse : Bool :=
        match p.bestTimeSeconds with
        | none => true
        | some b => b == 0 || t < b
      if t ≠ 0 ∧ bestMissingOrWorse then
        { p with bestTimeSeconds := some t }
      else p
  | none => p

/-- Star recomputation from the score ratio (3 at 90%, 2 at 70%, 1 at
50%, otherwise left as they were). -/
def applyStars (p : Progress) : Progress :=
  let maxScore : Int :=
    match p.maxScore with
    | some m => if m ≠ 0 then m else 100
    | none => 100
  let scoreFrac : ℚ := (p.score : ℚ) / (maxScore : ℚ)
  if scoreFrac ≥ 9 / 10 then { p with stars := 3 }
  else if scoreFrac ≥ 7 / 10 then { p with stars := 2 }
  else if scoreFrac ≥ 1 / 2 then { p with stars := 1 }
  else p

/-- Completion latch: set `completed`/`completed_at` only when not
already completed and the (new) stars reach 1. -/
def applyCompleted (p : Progress) (now : Int) : Progress :=
  if !p.completed && p.stars ≥ 1 then
    { p with completed := true, completedAt := some now }
  else p

/-- Embedding of the post-validation progress mutation of
`complete_level` (`routers/progress.py` lines 387–411), the source's
sequential field mutations composed in statement order. -/
def updateProgress (p : Progress) (verifiedScore : Int) (solution : Option Json)
    (timeSeconds : Option Int) (now : Int) : Progress :=
  applyCompleted (applyStars (applyBestTime (applyScore (bumpAttempts p)
    verifiedScore solution) timeSeconds)) now

/-! ## Challenge seed generation (`challenge_seeds.py`)

`ChallengeSeedGenerator` hashes `str(user_id) : str(level_id) :
<rotation time token>` with SHA-256, takes the first 8 digest bytes
big-endian as the seed, and drives Python's `random.Random` (a Mersenne
Twister).  SHA-256 and the MT19937 generator (with CPython's integer
seeding, `getrandbits`-based `_randbelow`, `randint`, `choice`, `sample`
and Fisher–Yates `shuffle`) are embedded executably below.  32-bit words
are `Nat` reduced by `u32`. -/

/-- Reduction of a `Nat` to a 32-bit word. -/
def u32 (n : Nat) : Nat := n % 4294967296

/-- Rotate a 32-bit word right by `n` positions. -/
def rotr (x n : Nat) : Nat := u32 ((x >>> n) ||| (x <<< (32 - n)))

/-- Big-endian bytes of `n`, `k` bytes wide. -/
def toBytesBE (k : Nat) (n : Nat) : List Nat :=
  (List.range k).map (fun i => (n >>> (8 * (k - 1 - i))) % 256)

/-- Big-endian interpretation of a byte list
(`int.from_bytes(..., byteorder="big")`). -/
def fromBytesBE (bs : List Nat) : Nat := bs.foldl (fun acc b => acc * 256 + b) 0

/-- SHA-256 round-constant schedule K of FIPS 180-4, written as plain
decimal words. -/
def sha256K : List Nat :=
  [1116352408, 1899447441, 3049323471, 3921009573, 961987163,
   1508970993, 2453635748, 2870763221, 3624381080, 310598401,
   607225278, 1426881987, 1925078388, 2162078206, 2614888103,
   3248222580, 3835390401, 4022224774, 264347078, 604807628,
   770255983, 1249150122, 1555081692, 1996064986, 2554220882,
   2821834349, 2952996808, 3210313671, 3336571891, 3584528711,
   113926993, 338241895, 666307205, 773529912, 1294757372,
   1396182291, 1695183700, 1986661051, 2177026350, 2456956037,
   2730485921, 2820302411, 3259730800, 3345764771, 3516065817,
   3600352804, 4094571909, 275423344, 430227734, 506948616,
   659060556, 883997877, 958139571, 1322822218, 1537002063,
   1747873779, 1955562222, 2024104815, 2227730452, 2361852424,
   2428436474, 2756734187, 3204031479, 3329325298]

/-- Starting hash words H0..H7 of SHA-256, in decimal. -/
def sha256InitH : List Nat :=
  [1779033703, 3144134277, 1013904242, 2773480762,
   1359893119, 2600822924, 528734635, 1541459225]

/-- SHA-256 message padding: `0x80`, zeros to 56 mod 64, then the bit
length as 8 big-endian bytes. -/
def sha256Pad (msg : List Nat) : List Nat :=
  let ml := msg.length
  let z := (64 + 56 - ((ml + 1) % 64)) % 64
  msg ++ [0x80] ++ List.replicate z 0 ++ toBytesBE 8 (ml * 8)

/-- Split a byte list into 64-byte blocks. -/
def chunks64 : List Nat → List (List Nat)
  | [] => []
  | x :: rest => ((x :: rest).take 64) :: chunks64 (rest.drop 63)
termination_by l => l.length
decreasing_by simp; omega

/-- SHA-256 message schedule: expand a 64-byte block to 64 words. -/
def sha256Schedule (block : List Nat) : Array Nat :=
  let w0 : Array Nat :=
    ((List.range 16).map (fun i => fromBytesBE ((block.drop (4 * i)).take 4))).toArray
  (List.range 48).foldl (fun w t =>
    let w15 := w.getD (t + 1) 0
    let w2 := w.getD (t + 14) 0
    let s0 := (rotr w15 7) ^^^ (rotr w15 18) ^^^ (w15 >>> 3)
    let s1 := (rotr w2 17) ^^^ (rotr w2 19) ^^^ (w2 >>> 10)
    w.push (u32 (w.getD t 0 + s0 + w.getD (t + 9) 0 + s1))) w0

/-- SHA-256 compression of one 64-byte block into the hash state. -/
def sha256Compress (h : List Nat) (block : List Nat) : List Nat :=
  let w := sha256Schedule block
  let v := (List.range 64).foldl (fun (v : Array Nat) t =>
    let a := v.getD 0 0
    let b := v.getD 1 0
    let c := v.getD 2 0
    let d := v.getD 3 0
    let e := v.getD 4 0
    let f := v.getD 5 0
    let g := v.getD 6 0
    let hh := v.getD 7 0
    let s1 := (rotr e 6) ^^^ (rotr e 11) ^^^ (rotr e 25)
    let ch := (e &&& f) ^^^ ((4294967295 ^^^ e) &&& g)
    let temp1 := u32 (hh + s1 + ch + sha256K.getD t 0 + w.getD t 0)
    let s0 := (rotr a 2) ^^^ (rotr a 13) ^^^ (rotr a 22)
    let maj := (a &&& b) ^^^ ((a ^^^ b) &&& c)
    let temp2 := u32 (s0 + maj)
    #[u32 (temp1 + temp2), a, b, c, u32 (d + temp1), e, f, g]) h.toArray
  (List.range 8).map (fun i => u32 (h.getD i 0 + v.getD i 0))

/-- SHA-256 digest (32 bytes) of a byte list. -/
def sha256 (msg : List Nat) : List Nat :=
  let final := (chunks64 (sha256Pad msg)).foldl sha256Compress sha256InitH
  final.foldr (fun w acc => toBytesBE 4 w ++ acc) []

/-- UTF-8 bytes of a string (Python `str.encode()`). -/
def strBytes (s : String) : List Nat := s.toUTF8.toList.map UInt8.toNat

/-- Values of the `seed_rotation` argument. -/
inductive Rotation where
  | daily | weekly | attempt | static
deriving Repr, DecidableEq

/-- Components joined by `ChallengeSeedGenerator._compute_seed`
(`challenge_seeds.py` lines 22–38): user and level ids, plus a
rotation-specific time token — and nothing else for `"static"`.  The
three possible time tokens (`date.today().isoformat()`, the ISO
year-week string, `datetime.utcnow().isoformat()`) are passed in as
explicit parameters of the embedding. -/
def seedComponents (userId levelId : String) (r : Rotation)
    (todayIso weekStr nowIso : String) : List String :=
  match r with
  | .daily => [userId, levelId, todayIso]
  | .weekly => [userId, levelId, weekStr]
  | .attempt => [userId, levelId, nowIso]
  | .static => [userId, levelId]

/-- Embedding of `ChallengeSeedGenerator._compute_seed`: SHA-256 of the
`":"`-joined components, first 8 digest bytes as a big-endian integer. -/
def computeSeed (userId levelId : String) (r : Rotation)
    (todayIso weekStr nowIso : String) : Nat :=
  let seedString := String.intercalate ":" (seedComponents userId levelId r todayIso weekStr nowIso)
  fromBytesBE ((sha256 (strBytes seedString)).take 8)

/-! ### MT19937 as seeded by CPython's `random.Random` -/

/-- Internal Mersenne-Twister state: 624 32-bit words and the read
index. -/
structure MTState where
  mt : Array Nat
  mti : Nat
deriving Repr, DecidableEq

/-- MT19937 `init_genrand`: fill the state array from a 32-bit seed. -/
def initGenrand (s : Nat) : Array Nat :=
  (List.range 623).foldl (fun arr i =>
    let prev := arr.getD i 0
    arr.push (u32 (1812433253 * (prev ^^^ (prev >>> 30)) + (i + 1)))) #[u32 s]

/-- One step of the first `init_by_array` mixing loop. -/
def initByArrayStep1 (key : Array Nat) (acc : Array Nat × Nat × Nat) :
    Array Nat × Nat × Nat :=
  let (mt, i, j) := acc
  let prev := mt.getD (i - 1) 0
  let v := u32 ((mt.getD i 0 ^^^ (u32 ((prev ^^^ (prev >>> 30)) * 1664525)))
    + key.getD j 0 + j)
  let mt := mt.set! i v
  let i := i + 1
  let j := j + 1
  let (mt, i) := if i ≥ 624 then (mt.set! 0 (mt.getD 623 0), 1) else (mt, i)
  let j := if j ≥ key.size then 0 else j
  (mt, i, j)

/-- One step of the second `init_by_array` mixing loop (the subtraction
wraps modulo 2^32). -/
def initByArrayStep2 (acc : Array Nat × Nat) : Array Nat × Nat :=
  let (mt, i) := acc
  let prev := mt.getD (i - 1) 0
  let v := u32 ((mt.getD i 0 ^^^ (u32 ((prev ^^^ (prev >>> 30)) * 1566083941)))
    + 4294967296 - i)
  let mt := mt.set! i v
  let i := i + 1
  if i ≥ 624 then (mt.set! 0 (mt.getD 623 0), 1) else (mt, i)

/-- MT19937 `init_by_array` seeding, as called by CPython's
`random.seed` with an integer key. -/
def mtInit (key : List Nat) : MTState :=
  let keyArr := key.toArray
  let mt := initGenrand 19650218
  let (mt, i, _) := (List.range (max 624 keyArr.size)).foldl
    (fun acc _ => initByArrayStep1 keyArr acc) (mt, 1, 0)
  let (mt, _) := (List.range 623).foldl (fun acc _ => initByArrayStep2 acc) (mt, i)
  ⟨mt.set! 0 2147483648, 624⟩

/-- The 32-bit words of a nonnegative integer, least significant first. -/
def natWords (n : Nat) : List Nat :=
  if n = 0 then [] else (n % 4294967296) :: natWords (n / 4294967296)
termination_by n
decreasing_by exact Nat.div_lt_self (Nat.pos_of_ne_zero (by assumption)) (by omega)

/-- CPython's key derivation for `random.seed(int)`: the absolute value
split into 32-bit words little-endian (seeds here are nonnegative), with
`[0]` for zero. -/
def pythonSeedKey (n : Nat) : List Nat := if n = 0 then [0] else natWords n

/-- MT19937 state twist, performed in place word by word. -/
def mtTwist (mt : Array Nat) : Array Nat :=
  (List.range 624).foldl (fun a kk =>
    let y := (a.getD kk 0 &&& 2147483648) ||| (a.getD ((kk + 1) % 624) 0 &&& 2147483647)
    let mag := if y % 2 = 1 then 2567483615 else 0
    a.set! kk ((a.getD ((kk + 397) % 624) 0) ^^^ (y >>> 1) ^^^ mag)) mt

/-- MT19937 `genrand_uint32`: twist when the index is exhausted, then
read and temper one word. -/
def genrandUint32 (s : MTState) : Nat × MTState :=
  let (mt, mti) := if s.mti ≥ 624 then (mtTwist s.mt, 0) else (s.mt, s.mti)
  let y := mt.getD mti 0
  let y := y ^^^ (y >>> 11)
  let y := y ^^^ ((y <<< 7) &&& 2636928640)
  let y := y ^^^ ((y <<< 15) &&& 4022730752)
  let y := y ^^^ (y >>> 18)
  (y, ⟨mt, mti + 1⟩)

/-- Python `int.bit_length()`. -/
def bitLength (n : Nat) : Nat := if n = 0 then 0 else Nat.log2 n + 1

/-- CPython `getrandbits(k)`: 32-bit words assembled little-endian, the
final partial word shifted down. -/
def getrandbits : Nat → MTState → Nat × MTState
  | 0, s => (0, s)
  | k + 1, s =>
    let (r, s) := genrandUint32 s
    let r := if k + 1 < 32 then r >>> (32 - (k + 1)) else r
    let (hi, s) := getrandbits (k + 1 - 32) s
    (r + (hi <<< 32), s)
termination_by k => k

/-- Rejection loop of `Random._randbelow_with_getrandbits`.  The source
retries unboundedly; each retry succeeds with probability above 1/2, and
the embedding bounds the retries by explicit fuel with a reduction
fallback that no execution with 64 available retries reaches. -/
def randbelowLoop (n k : Nat) (s : MTState) : Nat → Nat × MTState
  | 0 =>
    let (r, s) := getrandbits k s
    (r % n, s)
  | fuel + 1 =>
    let (r, s) := getrandbits k s
    if r < n then (r, s) else randbelowLoop n k s fuel

/-- CPython `Random._randbelow(n)`: `0` for `n = 0`, otherwise draw
`bit_length(n)` bits until the draw is below `n`. -/
def randbelow (n : Nat) (s : MTState) : Nat × MTState :=
  if n = 0 then (0, s) else randbelowLoop n (bitLength n) s 64

/-- Python `randint(a, b)` = `randrange(a, b + 1)`; an empty range
raises `ValueError`, modelled as `none`. -/
def mtRandint (a b : Int) (s : MTState) : Option Int × MTState :=
  let width := b + 1 - a
  if width ≤ 0 then (none, s)
  else
    let (r, s) := randbelow width.toNat s
    (some (a + r), s)

/-- Python `choice(seq)` (`seq[_randbelow(len(seq))]`); an empty
sequence raises `IndexError`, modelled as `none`. -/
def mtChoice (l : List α) (s : MTState) : Option α × MTState :=
  let (j, s) := randbelow l.length s
  (l.get? j, s)

/-- In-place swap `x[i], x[j] = x[j], x[i]` on a list. -/
def listSwap (l : List α) (i j : Nat) : List α :=
  match l.get? i, l.get? j with
  | some a, some b => (l.set i b).set j a
  | _, _ => l

/-- Python `shuffle(x)`: Fisher–Yates, `j = _randbelow(i + 1)` for `i`
from `len - 1` down to `1`. -/
def mtShuffle (s : MTState) (items : List α) : List α × MTState :=
  ((List.range items.length).drop 1).reverse.foldl
    (fun acc i =>
      let (j, st) := randbelow (i + 1) acc.2
      (listSwap acc.1 i j, st)) (items, s)

/-- Python `math.ceil(math.log(m, 4))` for positive integer `m`,
computed exactly: the least `e` with `4 ^ e ≥ m`. -/
def ceilLog4 (m : Nat) : Nat :=
  ((List.range 64).find? (fun e => 4 ^ e ≥ m)).getD 64

/-- The `setsize` heuristic of CPython `Random.sample`. -/
def mtSampleSetsize (k : Nat) : Nat :=
  21 + (if k > 5 then 4 ^ ceilLog4 (k * 3) else 0)

/-- Inner `while j in selected` retry loop of CPython `Random.sample`'s
selection-set branch, bounded by fuel exactly as `randbelowLoop` is. -/
def mtSamplePick (n : Nat) (selected : List Nat) (s : MTState) : Nat → Nat × MTState
  | 0 => randbelow n s
  | fuel + 1 =>
    let (j, s) := randbelow n s
    if selected.contains j then mtSamplePick n selected s fuel else (j, s)

/-- CPython `Random.sample(population, k)`: the partial-shuffle pool
branch for small populations, the selection-set branch otherwise;
`k > len(population)` raises `ValueError`, modelled as `none`. -/
def mtSample (population : List α) (k : Nat) (s : MTState) :
    Option (List α) × MTState :=
  let n := population.length
  if k > n then (none, s)
  else if n ≤ mtSampleSetsize k then
    let init : List α × Array α × MTState := ([], population.toArray, s)
    let (result, _, s) := (List.range k).foldl (fun acc i =>
      let (result, pool, st) := acc
      let (j, st) := randbelow (n - i) st
      match pool.get? j, pool.get? (n - i - 1) with
      | some picked, some last => (result ++ [picked], pool.set! j last, st)
      | _, _ => (result, pool, st)) init
    (some result, s)
  else
    let init : List α × List Nat × MTState := ([], [], s)
    let (result, _, s) := (List.range k).foldl (fun acc _ =>
      let (result, selected, st) := acc
      let (j, st) := mtSamplePick n selected st 64
      match population.get? j with
      | some picked => (result ++ [picked], j :: selected, st)
      | none => (result, selected, st)) init
    (some result, s)

/-! ### The generator object (`challenge_seeds.py::ChallengeSeedGenerator`) -/

/-- Generator state: the computed seed and the seeded `random.Random`. -/
structure ChallengeSeedGenerator where
  seed : Nat
  rng : MTState
deriving Repr, DecidableEq

/-- Embedding of `ChallengeSeedGenerator.__init__(user_id, level_id,
seed_rotation)`: compute the seed and seed the Mersenne Twister with it. -/
def mkGenerator (userId levelId : String) (rotation : Rotation)
    (todayIso weekStr nowIso : String) : ChallengeSeedGenerator :=
  let sd := computeSeed userId levelId rotation todayIso weekStr nowIso
  ⟨sd, mtInit (pythonSeedKey sd)⟩

/-- Method `random_int(min_val, max_val)`. -/
def ChallengeSeedGenerator.random_int (g : ChallengeSeedGenerator) (lo hi : Int) :
    Option Int × ChallengeSeedGenerator :=
  let (v, st) := mtRandint lo hi g.rng
  (v, { g with rng := st })

/-- Method `random_choice(options)`. -/
def ChallengeSeedGenerator.random_choice (g : ChallengeSeedGenerator)
    (options : List α) : Option α × ChallengeSeedGenerator :=
  let (v, st) := mtChoice options g.rng
  (v, { g with rng := st })

/-- Method `random_sample(options, k)`: `sample(options, min(k, len(options)))`. -/
def ChallengeSeedGenerator.random_sample (g : ChallengeSeedGenerator)
    (options : List α) (k : Nat) : Option (List α) × ChallengeSeedGenerator :=
  let (v, st) := mtSample options (min k options.length) g.rng
  (v, { g with rng := st })

/-- Method `shuffle(items)`: shuffle a copy (`items.copy()`) in place and
return it; the argument list is read, never written. -/
def ChallengeSeedGenerator.shuffle (g : ChallengeSeedGenerator)
    (items : List α) : List α × ChallengeSeedGenerator :=
  let (v, st) := mtShuffle g.rng items
  (v, { g with rng := st })

/-- A call against the generator (the methods the determinism claim
names), with `Int` element values. -/
inductive SeedOp where
  | randInt (lo hi : Int)
  | choice (options : List Int)
  | sample (options : List Int) (k : Nat)
  | shuffleOp (items : List Int)
deriving Repr, DecidableEq

/-- Observable output of one generator call. -/
inductive SeedOut where
  | outInt (v : Option Int)
  | outList (v : Option (List Int))
  | outShuffled (v : List Int)
deriving Repr, DecidableEq

/-- Run one call against the generator. -/
def runOp (g : ChallengeSeedGenerator) : SeedOp → SeedOut × ChallengeSeedGenerator
  | .randInt lo hi =>
      let (v, g) := g.random_int lo hi
      (.outInt v, g)
  | .choice options =>
      let (v, g) := g.random_choice options
      (.outInt v, g)
  | .sample options k =>
      let (v, g) := g.random_sample options k
      (.outList v, g)
  | .shuffleOp items =>
      let (v, g) := g.shuffle items
      (.outShuffled v, g)

/-- Run a sequence of calls, collecting every output. -/
def runOps (g : ChallengeSeedGenerator) (ops : List SeedOp) :
    List SeedOut × ChallengeSeedGenerator :=
  ops.foldl (fun (acc : List SeedOut × ChallengeSeedGenerator) op =>
    let (out, g) := runOp acc.2 op
    (acc.1 ++ [out], g)) ([], g)

/-! ## Concrete fixtures

Concrete rows and payloads used to instantiate the theorems at the
inputs the specification's scenarios name. -/

/-- Gate-puzzle level config of the end-to-end scoring scenario. -/
def gpConfig : Json := .obj
  [("initial_state", .str "|0⟩"), ("target_state_symbol", .str "|+⟩"),
   ("optimal_gate_count", .num 1), ("max_score", .num 100)]

/-- Submission applying a single Hadamard. -/
def gpSolutionH : Json := .obj [("gates", .arr [.str "H"])]

/-- Submission applying a single X gate. -/
def gpSolutionX : Json := .obj [("gates", .arr [.str "X"])]

/-- Submission applying a Hadamard followed by four unrecognised gate
names. -/
def gpSolutionHJunk : Json := .obj
  [("gates", .arr [.str "H", .str "FOO", .str "BAR", .str "QUX", .str "ZAP"])]

/-- Same gate-puzzle parameters as level config for the anticheat
verifier, which runs only when `requires_gate_verification` is set. -/
def gpVerifyLevel : Json := .obj
  [("requires_gate_verification", .bool true), ("initial_state", .str "|0⟩"),
   ("target_state_symbol", .str "|+⟩"), ("optimal_gate_count", .num 1)]

/-- Deutsch-Jozsa level config with a balanced oracle. -/
def djConfig : Json := .obj [("oracle_type", .str "balanced")]

/-- Correct one-query (quantum) Deutsch-Jozsa submission. -/
def djSolutionQ : Json := .obj [("answer", .str "balanced"), ("queries", .num 1)]

/-- Wrong-answer Deutsch-Jozsa submission. -/
def djSolutionWrong : Json := .obj [("answer", .str "constant"), ("queries", .num 1)]

/-- Correct three-query (classical) Deutsch-Jozsa submission. -/
def djSolutionC : Json := .obj [("answer", .str "balanced"), ("queries", .num 3)]

/-- A 10-minute-estimated difficulty-1 level (time-anomaly boundary
scenario). -/
def lvl10min : Level := ⟨1, 1, 1, "L", 1, 10, 10, .obj []⟩

/-- A 1-minute-estimated difficulty-2 level, where the code's integer
truncation bites: the untruncated minimum is 6.3 seconds, the code's
is 6. -/
def lvlTrunc : Level := ⟨2, 1, 1, "L", 2, 1, 10, .obj []⟩

/-- A 30-minute-estimated difficulty-4 level, where binary64 rounding
bites: `180 * 1.15` is `206.99999999999997` as a float, so the code's
minimum is 206 where exact arithmetic gives 207. -/
def lvl30m4 : Level := ⟨3, 1, 1, "L", 4, 30, 10, .obj []⟩

/-- Prerequisite game. -/
def gameA : Game := ⟨1, "a", "Game A", .obj []⟩

/-- Game gated on having completed something in game `a`. -/
def gameB : Game := ⟨2, "b", "Game B", .obj [("prerequisite_games", .arr [.str "a"])]⟩

/-- The two levels of game `a` and the first level of game `b`. -/
def levelA1 : Level := ⟨11, 1, 1, "A1", 1, 5, 10, .obj []⟩

def levelA2 : Level := ⟨12, 1, 2, "A2", 1, 5, 10, .obj []⟩

def levelB1 : Level := ⟨21, 2, 1, "B1", 1, 5, 10, .obj []⟩

/-- A completed progress row for the given user and level. -/
def completedRow (uid lid : Nat) : Progress :=
  ⟨uid, lid, 100, some 100, 3, 1, none, none, true, some 0⟩

/-- State where user 7 completed one level of the prerequisite game. -/
def dbOneCompletion : DB :=
  ⟨[gameA, gameB], [levelA1, levelA2, levelB1], [completedRow 7 11]⟩

/-- State where user 7 completed both levels of the prerequisite game. -/
def dbTwoCompletions : DB :=
  ⟨[gameA, gameB], [levelA1, levelA2, levelB1], [completedRow 7 11, completedRow 7 12]⟩

/-- An active proctored session with no flags, started at time 0. -/
def baseSession : ProctoredSession :=
  ⟨7, 21, .active, "tok", "C0DE", 60, none, some "UA", some "10.0.0.1", 0,
   none, none, [], none⟩

/-- The same session carrying two warning flags. -/
def sessionTwoWarnings : ProctoredSession :=
  { baseSession with flags :=
    [⟨"IP_ADDRESS_CHANGED", "warning", "IP changed", 0⟩,
     ⟨"USER_AGENT_CHANGED", "warning", "Browser user agent changed during session", 0⟩] }

/-- An active session whose time budget is zero minutes. -/
def expiredSession : ProctoredSession := { baseSession with maxDurationMinutes := 0 }

/-- Browser info matching `baseSession`'s stored values. -/
def matchingBrowser : BrowserInfo := ⟨none, some "UA", some "10.0.0.1"⟩

/-- Browser info with a different user agent. -/
def otherUABrowser : BrowserInfo := ⟨none, some "UA2", some "10.0.0.1"⟩

/-- A fresh progress row before any submission. -/
def freshProgress : Progress := ⟨7, 21, 0, some 100, 0, 0, none, none, false, none⟩

/-- A scalar-answer solution payload. -/
def divSolution : Json := .obj [("answer", .str "balanced")]

/-- State where another user's stored best solution for level 21 has the
same content as `divSolution` with keys in a different order (here a
single key, byte-identical). -/
def dbDiversity : DB :=
  ⟨[], [], [⟨8, 21, 90, some 100, 3, 1, none, some (.obj [("answer", .str "balanced")]),
             true, some 0⟩]⟩

/-! ## Supporting lemmas -/

theorem canonicalKVs_eq_map (l : List (String × Json)) :
    canonicalKVs l = l.map (fun p => (p.1, canonical p.2)) := by
  induction l with
  | nil => rfl
  | cons p t ih => cases p; simp [canonicalKVs, ih]

theorem sortKVs_perm (l : List (String × Json)) : (sortKVs l).Perm l :=
  List.perm_insertionSort kvLE l

theorem sortKVs_sorted (l : List (String × Json)) : List.Sorted kvLE (sortKVs l) :=
  List.sorted_insertionSort kvLE l

/-- A key-sorted entry list with duplicate-free keys is strictly sorted. -/
theorem sorted_kvLT_of_nodup_keys {l : List (String × Json)}
    (hs : List.Sorted kvLE l) (hnd : (l.map Prod.fst).Nodup) :
    List.Sorted kvLT l := by
  induction l with
  | nil => simp [List.Sorted]
  | cons a t ih =>
    rw [List.sorted_cons] at hs ⊢
    simp only [List.map_cons, List.nodup_cons, List.mem_map] at hnd
    refine ⟨fun b hb => ?_, ih hs.2 hnd.2⟩
    have hle : a.1 ≤ b.1 := hs.1 b hb
    have hne : a.1 ≠ b.1 := fun he => hnd.1 ⟨b, hb, he.symm⟩
    exact lt_of_le_of_ne hle hne

/-- Sorting by key sends any two permuted entry lists with
duplicate-free keys to the same list. -/
theorem sortKVs_eq_of_perm {l₁ l₂ : List (String × Json)} (hp : l₁.Perm l₂)
    (hnd : (l₁.map Prod.fst).Nodup) : sortKVs l₁ = sortKVs l₂ := by
  have hnd₂ : (l₂.map Prod.fst).Nodup := ((hp.map Prod.fst).nodup_iff).mp hnd
  have hnds₁ : ((sortKVs l₁).map Prod.fst).Nodup :=
    (((sortKVs_perm l₁).map Prod.fst).nodup_iff).mpr hnd
  have hnds₂ : ((sortKVs l₂).map Prod.fst).Nodup :=
    (((sortKVs_perm l₂).map Prod.fst).nodup_iff).mpr hnd₂
  exact List.eq_of_perm_of_sorted
    (((sortKVs_perm l₁).trans hp).trans (sortKVs_perm l₂).symm)
    (sorted_kvLT_of_nodup_keys (sortKVs_sorted l₁) hnds₁)
    (sorted_kvLT_of_nodup_keys (sortKVs_sorted l₂) hnds₂)

/-- Replacing the element at a position with `x` and prepending the old
element there permutes prepending `x`. -/
theorem cons_set_perm {α : Type} : ∀ (xs : List α) (m : Nat) (x b : α),
    xs.get? m = some b → List.Perm (b :: xs.set m x) (x :: xs)
  | [], _, _, _, h => Option.noConfusion h
  | y :: ys, 0, x, b, h => by
    have hb : y = b := Option.some.inj h
    subst hb
    exact List.Perm.swap x y ys
  | y :: ys, m + 1, x, b, h =>
    (List.Perm.swap y b (ys.set m x)).trans
      (((cons_set_perm ys m x b h).cons y).trans (List.Perm.swap x y ys))

/-- Writing each of two positions the other's element permutes the
list. -/
theorem set_set_perm {α : Type} : ∀ (l : List α) (i j : Nat) (a b : α),
    l.get? i = some a → l.get? j = some b → List.Perm ((l.set i b).set j a) l
  | [], _, _, _, _, hi, _ => Option.noConfusion hi
  | x :: xs, 0, 0, a, b, hi, hj => by
    have ha : x = a := Option.some.inj hi
    subst ha
    exact List.Perm.refl _
  | x :: xs, 0, m + 1, a, b, hi, hj => by
    have ha : x = a := Option.some.inj hi
    subst ha
    exact cons_set_perm xs m x b hj
  | x :: xs, n + 1, 0, a, b, hi, hj => by
    have hb : x = b := Option.some.inj hj
    subst hb
    exact cons_set_perm xs n x a hi
  | x :: xs, n + 1, m + 1, a, b, hi, hj =>
    (set_set_perm xs n m a b hi hj).cons x

/-- The in-place swap of two positions permutes the list. -/
theorem listSwap_perm {α : Type} (l : List α) (i j : Nat) :
    List.Perm (listSwap l i j) l := by
  unfold listSwap
  split
  · rename_i a b hi hj
    exact set_set_perm l i j a b hi hj
  · exact List.Perm.refl l

/-- The Fisher–Yates fold only ever swaps, so its result permutes the
start list. -/
theorem shuffle_fold_perm {α : Type} (items : List α) :
    ∀ (idxs : List Nat) (acc : List α × MTState), List.Perm acc.1 items →
      List.Perm ((idxs.foldl (fun acc i =>
        let (j, st) := randbelow (i + 1) acc.2
        (listSwap acc.1 i j, st)) acc).1) items
  | [], _, h => h
  | i :: rest, acc, h => by
    simp only [List.foldl_cons]
    exact shuffle_fold_perm items rest _ ((listSwap_perm acc.1 i _).trans h)

/-- The shuffled copy contains exactly the input's elements. -/
theorem mtShuffle_perm {α : Type} (s : MTState) (items : List α) :
    List.Perm (mtShuffle s items).1 items := by
  unfold mtShuffle
  exact shuffle_fold_perm items _ (items, s) (List.Perm.refl items)

/-- The warning-flag tail appends exactly one flag per mismatching
stored value, in IP-then-user-agent order, and changes nothing else. -/
theorem validateWarnFlags_eq (s : ProctoredSession) (b : BrowserInfo) (now : Int) :
    validateWarnFlags s b now = { s with flags := s.flags ++
      (if ipMismatch s b then
        [⟨"IP_ADDRESS_CHANGED", "warning", "IP changed", now⟩] else []) ++
      (if uaMismatch s b then
        [⟨"USER_AGENT_CHANGED", "warning",
          "Browser user agent changed during session", now⟩] else []) } := by
  have huaf : ∀ fl, uaMismatch { s with flags := fl } b = uaMismatch s b :=
    fun _ => rfl
  cases hip : ipMismatch s b <;> cases hua : uaMismatch s b <;>
    simp [validateWarnFlags, addFlag, huaf, hip, hua]

theorem sevCount_cons (f : ProctoringFlagRec) (t : List ProctoringFlagRec)
    (sev : String) :
    sevCount (f :: t) sev = sevCount t sev + (if f.severity = sev then 1 else 0) := by
  by_cases h : f.severity = sev <;> simp [sevCount, List.filter_cons, h]

/-- The integrity deduction loop sums 30/10/2 per
critical/warning/info flag. -/
theorem flag_fold_counts : ∀ (fs : List ProctoringFlagRec) (acc : Int),
    fs.foldl (fun acc f => acc + flagWeight f) acc =
      acc + (30 * sevCount fs "critical" + 10 * sevCount fs "warning"
             + 2 * sevCount fs "info")
  | [], acc => by simp [sevCount]
  | f :: t, acc => by
    rw [List.foldl_cons, flag_fold_counts t (acc + flagWeight f),
      sevCount_cons, sevCount_cons, sevCount_cons]
    unfold flagWeight
    by_cases h₁ : f.severity = "critical" <;> by_cases h₂ : f.severity = "warning" <;>
      by_cases h₃ : f.severity = "info" <;> simp [h₁, h₂, h₃] <;> ring

set_option maxHeartbeats 1600000 in
/-- Only the four gate names `X`, `Y`, `Z`, `H` appear in the transition
table. -/
theorem gateTransition_name {s x t : Json} (h : gateTransition s x = some t) :
    x = .str "X" ∨ x = .str "Y" ∨ x = .str "Z" ∨ x = .str "H" := by
  unfold gateTransition at h
  split at h <;> simp_all

theorem applyScore_score (p : Progress) (v : Int) (sol : Option Json) :
    (applyScore p v sol).score = if v > p.score then v else p.score := by
  unfold applyScore
  split <;> rfl

theorem applyScore_pres (p : Progress) (v : Int) (sol : Option Json) :
    (applyScore p v sol).completed = p.completed ∧
    (applyScore p v sol).completedAt = p.completedAt ∧
    (applyScore p v sol).maxScore = p.maxScore := by
  unfold applyScore
  split <;> exact ⟨rfl, rfl, rfl⟩

theorem applyBestTime_pres (p : Progress) (t : Option Int) :
    (applyBestTime p t).score = p.score ∧
    (applyBestTime p t).completed = p.completed ∧
    (applyBestTime p t).completedAt = p.completedAt ∧
    (applyBestTime p t).maxScore = p.maxScore := by
  unfold applyBestTime
  cases t with
  | none => exact ⟨rfl, rfl, rfl, rfl⟩
  | some t =>
    dsimp only []
    split <;> exact ⟨rfl, rfl, rfl, rfl⟩

theorem applyStars_pres (p : Progress) :
    (applyStars p).score = p.score ∧
    (applyStars p).completed = p.completed ∧
    (applyStars p).completedAt = p.completedAt := by
  unfold applyStars
  dsimp only []
  split
  · exact ⟨rfl, rfl, rfl⟩
  split
  · exact ⟨rfl, rfl, rfl⟩
  split <;> exact ⟨rfl, rfl, rfl⟩

theorem applyCompleted_spec (p : Progress) (now : Int) :
    (applyCompleted p now).score = p.score ∧
    (applyCompleted p now).stars = p.stars ∧
    (p.completed = true → (applyCompleted p now).completed = true ∧
      (applyCompleted p now).completedAt = p.completedAt) ∧
    (p.completed = false → ((applyCompleted p now).completed = true ↔ 1 ≤ p.stars)) ∧
    (p.completed = false → 1 ≤ p.stars →
      (applyCompleted p now).completedAt = some now) := by
  unfold applyCompleted
  by_cases hc : p.completed
  · simp [hc]
  · simp only [Bool.not_eq_true] at hc
    by_cases hs : 1 ≤ p.stars
    · simp [hc, hs]
    · simp [hc, hs]

/-! ## Claims -/

/-- C1: on every accepted submission the stored score never decreases
and changes only to a strictly greater verified score; `completed`
becomes true exactly once — it flips on the submission after which the
recomputed stars reach 1, with `completed_at` set to that moment — and
once true it, and its timestamp, are never changed again. -/
theorem c1_progress_update_spec (p : Progress) (verifiedScore : Int)
    (solution : Option Json) (timeSeconds : Option Int) (now : Int) :
    p.score ≤ (updateProgress p verifiedScore solution timeSeconds now).score ∧
    ((updateProgress p verifiedScore solution timeSeconds now).score ≠ p.score →
      p.score < verifiedScore ∧
      (updateProgress p verifiedScore solution timeSeconds now).score = verifiedScore) ∧
    (p.completed = true →
      (updateProgress p verifiedScore solution timeSeconds now).completed = true ∧
      (updateProgress p verifiedScore solution timeSeconds now).completedAt
        = p.completedAt) ∧
    (p.completed = false →
      ((updateProgress p verifiedScore solution timeSeconds now).completed = true ↔
        1 ≤ (updateProgress p verifiedScore solution timeSeconds now).stars)) ∧
    (p.completed = false →
      (updateProgress p verifiedScore solution timeSeconds now).completed = true →
      (updateProgress p verifiedScore solution timeSeconds now).completedAt
        = some now) := by
  unfold updateProgress
  have h1 := applyCompleted_spec (applyStars (applyBestTime
    (applyScore (bumpAttempts p) verifiedScore solution) timeSeconds)) now
  have h2 := applyStars_pres (applyBestTime
    (applyScore (bumpAttempts p) verifiedScore solution) timeSeconds)
  have h3 := applyBestTime_pres
    (applyScore (bumpAttempts p) verifiedScore solution) timeSeconds
  have h4 := applyScore_pres (bumpAttempts p) verifiedScore solution
  have h5 : (applyScore (bumpAttempts p) verifiedScore solution).score =
      if verifiedScore > p.score then verifiedScore else p.score :=
    applyScore_score (bumpAttempts p) verifiedScore solution
  have hscore : (applyCompleted (applyStars (applyBestTime
      (applyScore (bumpAttempts p) verifiedScore solution) timeSeconds)) now).score =
      if verifiedScore > p.score then verifiedScore else p.score := by
    rw [h1.1, h2.1, h3.1, h5]
  have hcompl : (applyStars (applyBestTime
      (applyScore (bumpAttempts p) verifiedScore solution) timeSeconds)).completed =
      p.completed := by
    rw [h2.2.1, h3.2.1, h4.1]
    rfl
  have hcomplAt : (applyStars (applyBestTime
      (applyScore (bumpAttempts p) verifiedScore solution) timeSeconds)).completedAt =
      p.completedAt := by
    rw [h2.2.2, h3.2.2.1, h4.2.1]
    rfl
  refine ⟨?_, ?_, fun hc => ?_, fun hc => ?_, fun hc hq => ?_⟩
  · rw [hscore]
    split <;> omega
  · intro hne
    by_cases hv : verifiedScore > p.score
    · rw [hscore, if_pos hv]
      exact ⟨hv, rfl⟩
    · exfalso
      apply hne
      rw [hscore, if_neg hv]
  · have h := h1.2.2.1 (by rw [hcompl]; exact hc)
    exact ⟨h.1, h.2.trans hcomplAt⟩
  · rw [h1.2.1]
    exact h1.2.2.2.1 (by rw [hcompl]; exact hc)
  · have hiff := h1.2.2.2.1 (by rw [hcompl]; exact hc)
    exact h1.2.2.2.2 (by rw [hcompl]; exact hc) (hiff.mp hq)

/-- Witness for C1: a first accepted submission scoring 80 of 100 earns
2 stars, latches `completed` and stamps `completed_at`. -/
theorem c1_progress_update_spec_witness :
    freshProgress.score ≤ (updateProgress freshProgress 80 none none 5).score ∧
    (updateProgress freshProgress 80 none none 5).completed = true ∧
    (updateProgress freshProgress 80 none none 5).completedAt = some 5 := by
  have h := c1_progress_update_spec freshProgress 80 none none 5
  have hstars : (updateProgress freshProgress 80 none none 5).stars = 2 := by
    norm_num [updateProgress, bumpAttempts, applyScore, applyBestTime, applyStars,
      applyCompleted, freshProgress]
  refine ⟨h.1, ?_, ?_⟩
  · exact (h.2.2.2.1 rfl).mpr (by rw [hstars]; norm_num)
  · exact h.2.2.2.2 rfl ((h.2.2.2.1 rfl).mpr (by rw [hstars]; norm_num))

/-- C2: demonstration that `check_prerequisites` breaks as soon as a
user has completed more than one level of a prerequisite game.  With one
completed level the check passes with an empty missing list, exactly as
the claim states; with two completed levels the completed-progress query
returns two rows and `scalar_one_or_none()` raises
`MultipleResultsFound` instead of succeeding. -/
theorem c2_prereq_multiple_completions_raises :
    checkPrerequisites dbOneCompletion 7 gameB levelB1 = .ok (true, none, []) ∧
    checkPrerequisites dbTwoCompletions 7 gameB levelB1 =
      .error "MultipleResultsFound" := by
  exact ⟨rfl, rfl⟩

set_option maxRecDepth 4000 in
/-- C8 counterexample: for a 1-minute-estimated, difficulty-2 level the
claim's untruncated minimum is 6.3 seconds, so the claim says
`time_seconds = 6` must be rejected — but the code truncates the minimum
to 6 and accepts it. -/
theorem c8_truncation_counterexample :
    claimedMinTime lvlTrunc = 63 / 10 ∧
    (6 : ℚ) < claimedMinTime lvlTrunc ∧
    minCompletionTime lvlTrunc = 6 ∧
    (validateCompletionTime lvlTrunc (some 6) none).1 = true := by
  have h6 : minCompletionTime lvlTrunc = 6 := by decide
  exact ⟨by norm_num [claimedMinTime, lvlTrunc],
    by norm_num [claimedMinTime, lvlTrunc], h6,
    by simp [validateCompletionTime, h6]⟩

set_option maxRecDepth 4000 in
/-- C8 (amended): `validate_completion_time` passes whenever
`time_seconds` is absent; otherwise it fails exactly when `time_seconds`
is below the code's minimum, computed in binary64 float arithmetic with
truncating `int(...)` as
`int(max(5, int((estimated_minutes * 60) * 0.1)) * (1.0 + (difficulty - 1) * 0.05))`
(`minCompletionTime`).  A 10-minute-estimated difficulty-1 level has
minimum 60 seconds (3 rejected, 120 accepted); a 30-minute-estimated
difficulty-4 level has minimum 206 — not the 207 of exact arithmetic —
and accepts 206.  The bounds delimit the envelope on which the float
embedding was checked against CPython (far outside it the Python
computation overflows). -/
theorem c8_min_time_truncated (level : Level)
    (timeSeconds sessionStartedAt : Option Int)
    (_hem0 : 0 ≤ level.estimatedMinutes) (_hem1 : level.estimatedMinutes ≤ 100000)
    (_hd0 : 0 ≤ level.difficulty) (_hd1 : level.difficulty ≤ 1000) :
    ((validateCompletionTime level timeSeconds sessionStartedAt).1 = false ↔
      (∃ t, timeSeconds = some t ∧ t < minCompletionTime level)) ∧
    minCompletionTime lvl10min = 60 ∧
    (validateCompletionTime lvl10min (some 3) none).1 = false ∧
    (validateCompletionTime lvl10min (some 120) none).1 = true ∧
    minCompletionTime lvl30m4 = 206 ∧
    (validateCompletionTime lvl30m4 (some 206) none).1 = true := by
  have h60 : minCompletionTime lvl10min = 60 := by decide
  have h206 : minCompletionTime lvl30m4 = 206 := by decide
  refine ⟨?_, h60, by simp [validateCompletionTime, h60],
    by simp [validateCompletionTime, h60], h206,
    by simp [validateCompletionTime, h206]⟩
  rcases timeSeconds with _ | t
  · by_cases hss : sessionStartedAt = none <;> simp [validateCompletionTime, hss]
  · have hcond : ¬(some t = none ∧ sessionStartedAt = none) := by simp
    simp only [validateCompletionTime, if_neg hcond]
    by_cases ht : t < minCompletionTime level
    · simp [ht]
    · simp [ht]

/-- Closed instantiation of the amended C8 at the concrete 10-minute
difficulty-1 and 30-minute difficulty-4 levels. -/
theorem c8_min_time_truncated_witness :
    (0 ≤ lvl10min.estimatedMinutes ∧ lvl10min.estimatedMinutes ≤ 100000 ∧
      0 ≤ lvl10min.difficulty ∧ lvl10min.difficulty ≤ 1000) ∧
    (((validateCompletionTime lvl10min (some 3) none).1 = false ↔
      (∃ t, (some (3 : Int)) = some t ∧ t < minCompletionTime lvl10min)) ∧
      minCompletionTime lvl10min = 60 ∧
      (validateCompletionTime lvl10min (some 3) none).1 = false ∧
      (validateCompletionTime lvl10min (some 120) none).1 = true ∧
      minCompletionTime lvl30m4 = 206 ∧
      (validateCompletionTime lvl30m4 (some 206) none).1 = true) :=
  ⟨⟨by decide, by decide, by decide, by decide⟩,
    c8_min_time_truncated lvl10min (some 3) none (by decide) (by decide)
      (by decide) (by decide)⟩

/-- C4: the server-side gate-puzzle scorer replays the fixed transition
table from `initial_state`; a final state differing from
`target_state_symbol` scores 0, a matching one scores 60 plus an
efficiency bonus of 40 when the gate count is at most
`optimal_gate_count` and `max 0 (40 - 10·extra)` otherwise, capped at
`max_score`.  From `|0⟩` with gates `["H"]` and optimal count 1 the
score is 100 with efficiency bonus 40; gates `["X"]` against target
`|+⟩` score 0. -/
theorem c4_gate_puzzle_score_spec (config solution : Json) (maxScore : Int)
    (initial target : Json) (optimalGates : Int) (gates : List Json)
    (hi : (config.get "initial_state").getD (.str "|0⟩") = initial)
    (ht : (config.get "target_state_symbol").getD .null = target)
    (ho : config.getIntD "optimal_gate_count" 1 = optimalGates)
    (hg : solution.getList "gates" = gates) :
    (applyGates initial gates ≠ target →
      scoreGatePuzzle config solution maxScore =
        (0, maxScore, .incorrect (applyGates initial gates) target)) ∧
    (applyGates initial gates = target →
      scoreGatePuzzle config solution maxScore =
        (min (60 + (if (gates.length : Int) ≤ optimalGates then 40
                    else max 0 (40 - ((gates.length : Int) - optimalGates) * 10)))
           maxScore,
         maxScore,
         .correct 60
           (if (gates.length : Int) ≤ optimalGates then 40
            else max 0 (40 - ((gates.length : Int) - optimalGates) * 10))
           (gates.length : Int) optimalGates)) ∧
    scoreGatePuzzle gpConfig gpSolutionH 100 = (100, 100, .correct 60 40 1 1) ∧
    scoreGatePuzzle gpConfig gpSolutionX 100 =
      (0, 100, .incorrect (.str "|1⟩") (.str "|+⟩")) := by
  subst hi ht ho hg
  refine ⟨fun h => ?_, fun h => ?_, by decide, by decide⟩
  · simp [scoreGatePuzzle, h]
  · simp [scoreGatePuzzle, h]

/-- Witness for C4 at the scenario inputs. -/
theorem c4_gate_puzzle_score_spec_witness :
    scoreGatePuzzle gpConfig gpSolutionH 100 = (100, 100, .correct 60 40 1 1) ∧
    scoreGatePuzzle gpConfig gpSolutionX 100 =
      (0, 100, .incorrect (.str "|1⟩") (.str "|+⟩")) ∧
    scoreGatePuzzle gpConfig gpSolutionX 100 =
      (0, 100, .incorrect (applyGates (.str "|0⟩") [.str "X"]) (.str "|+⟩")) := by
  have h := c4_gate_puzzle_score_spec gpConfig gpSolutionX 100
    (.str "|0⟩") (.str "|+⟩") 1 [.str "X"] (by decide) (by decide) (by decide) (by decide)
  have h2 := c4_gate_puzzle_score_spec gpConfig gpSolutionH 100
    (.str "|0⟩") (.str "|+⟩") 1 [.str "H"] (by decide) (by decide) (by decide) (by decide)
  exact ⟨h2.2.2.1, h.2.2.2, h.1 (by decide)⟩

/-- C5: the server-side Deutsch-Jozsa scorer scores 0 when the answer
differs from `oracle_type`; a matching answer scores `max_score` with
method `"quantum"` when exactly 1 query was used, and
`max (60 - 15·(queries - 1)) 40` with method `"classical"` when more
than one was. -/
theorem c5_deutsch_score_spec (config solution : Json) (maxScore : Int)
    (oracleType answer : Json) (queries : Int)
    (ho : (config.get "oracle_type").getD .null = oracleType)
    (ha : (solution.get "answer").getD .null = answer)
    (hq : solution.getIntD "queries" 1 = queries) :
    (answer ≠ oracleType →
      scoreDeutschChallenge config solution maxScore =
        (0, maxScore, .incorrect answer oracleType)) ∧
    (answer = oracleType → queries = 1 →
      scoreDeutschChallenge config solution maxScore =
        (maxScore, maxScore, .correct 1 "quantum")) ∧
    (answer = oracleType → queries > 1 →
      scoreDeutschChallenge config solution maxScore =
        (max (60 - (queries - 1) * 15) 40, maxScore,
         .correct queries "classical")) ∧
    scoreDeutschChallenge djConfig djSolutionQ 100 =
      (100, 100, .correct 1 "quantum") ∧
    scoreDeutschChallenge djConfig djSolutionWrong 100 =
      (0, 100, .incorrect (.str "constant") (.str "balanced")) ∧
    scoreDeutschChallenge djConfig djSolutionC 100 =
      (40, 100, .correct 3 "classical") := by
  subst ho ha hq
  refine ⟨fun h => ?_, fun h hq1 => ?_, fun h hq1 => ?_,
    by decide, by decide, by decide⟩
  · simp [scoreDeutschChallenge, h]
  · simp [scoreDeutschChallenge, h, hq1]
  · have : solution.getIntD "queries" 1 ≠ 1 := by omega
    simp [scoreDeutschChallenge, h, this]

/-- Witness for C5 at the scenario inputs. -/
theorem c5_deutsch_score_spec_witness :
    scoreDeutschChallenge djConfig djSolutionQ 100 =
      (100, 100, .correct 1 "quantum") ∧
    scoreDeutschChallenge djConfig djSolutionWrong 100 =
      (0, 100, .incorrect (.str "constant") (.str "balanced")) ∧
    scoreDeutschChallenge djConfig djSolutionC 100 =
      (40, 100, .correct 3 "classical") := by
  have hq := c5_deutsch_score_spec djConfig djSolutionQ 100
    (.str "balanced") (.str "balanced") 1 (by decide) (by decide) (by decide)
  have hw := c5_deutsch_score_spec djConfig djSolutionWrong 100
    (.str "balanced") (.str "constant") 1 (by decide) (by decide) (by decide)
  have hc := c5_deutsch_score_spec djConfig djSolutionC 100
    (.str "balanced") (.str "balanced") 3 (by decide) (by decide) (by decide)
  exact ⟨hq.2.1 rfl rfl, hw.1 (by decide), hc.2.2.1 rfl (by omega)⟩

/-- C10: in both gate-puzzle replays (server-side scorer and anticheat
verifier), a gate whose name is not `X`, `Y`, `Z` or `H` leaves the
tracked state unchanged, so appending unknown gate names never changes
the computed final state — yet every list entry counts toward the gate
count, so appending unknown names can lower the score (from 100 to 60 in
the scorer and from 100 to 60 in the verifier at the concrete inputs
below). -/
theorem c10_unknown_gates_skipped_but_counted :
    (∀ (s g : Json), gateName g ≠ .str "X" → gateName g ≠ .str "Y" →
      gateName g ≠ .str "Z" → gateName g ≠ .str "H" → applyGate s g = s) ∧
    (∀ (initial : Json) (gates extra : List Json),
      (∀ g ∈ extra, gateName g ≠ .str "X" ∧ gateName g ≠ .str "Y" ∧
        gateName g ≠ .str "Z" ∧ gateName g ≠ .str "H") →
      applyGates initial (gates ++ extra) = applyGates initial gates) ∧
    applyGates (.str "|0⟩") [.str "H"] =
      applyGates (.str "|0⟩") [.str "H", .str "FOO", .str "BAR", .str "QUX", .str "ZAP"] ∧
    (scoreGatePuzzle gpConfig gpSolutionH 100).1 = 100 ∧
    (scoreGatePuzzle gpConfig gpSolutionHJunk 100).1 = 60 ∧
    verifyGatePuzzleSolution gpSolutionH gpVerifyLevel = (true, none, some 100) ∧
    verifyGatePuzzleSolution gpSolutionHJunk gpVerifyLevel = (true, none, some 60) := by
  have hskip : ∀ (s g : Json), gateName g ≠ .str "X" → gateName g ≠ .str "Y" →
      gateName g ≠ .str "Z" → gateName g ≠ .str "H" → applyGate s g = s := by
    intro s g h₁ h₂ h₃ h₄
    unfold applyGate
    cases htr : gateTransition s (gateName g) with
    | none => rfl
    | some t =>
      rcases gateTransition_name htr with h | h | h | h <;> simp_all
  have hfold : ∀ (extra : List Json),
      (∀ g ∈ extra, gateName g ≠ .str "X" ∧ gateName g ≠ .str "Y" ∧
        gateName g ≠ .str "Z" ∧ gateName g ≠ .str "H") →
      ∀ st : Json, extra.foldl applyGate st = st := by
    intro extra
    induction extra with
    | nil => intro _ _; rfl
    | cons g rest ih =>
      intro hex st
      have hg := hex g (List.mem_cons_self g rest)
      rw [List.foldl_cons, hskip st g hg.1 hg.2.1 hg.2.2.1 hg.2.2.2]
      exact ih (fun g hg => hex g (List.mem_cons_of_mem _ hg)) st
  refine ⟨hskip, fun initial gates extra hextra => ?_,
    by decide, by decide, by decide, by decide, by decide⟩
  unfold applyGates
  rw [List.foldl_append]
  exact hfold extra hextra _

/-- C3: `complete_session` succeeds exactly when the session exists and
its status is ACTIVE or FLAGGED; on success it sets the status to
COMPLETED, records `ended_at`, and sets the integrity score to 100 minus
30 per critical flag, 10 per warning flag and 2 per info flag, floored
at 0 — in particular 100 with no flags and 80 with exactly two warning
flags. -/
theorem c3_complete_session_spec (s : ProctoredSession) (notes : Option String)
    (now : Int) :
    completeSession none notes now = (false, some "Invalid session token", none) ∧
    (s.status ≠ .active → s.status ≠ .flagged →
      completeSession (some s) notes now =
        (false, some "Cannot complete session with this status", some s)) ∧
    (s.status = .active ∨ s.status = .flagged →
      completeSession (some s) notes now =
        (true, none, some { s with
          status := .completed
          endedAt := some now
          integrityScore := some (calculateIntegrityScore s)
          proctorNotes := notes })) ∧
    calculateIntegrityScore s =
      max 0 (100 - (30 * flagCount s "critical" + 10 * flagCount s "warning"
        + 2 * flagCount s "info")) ∧
    (s.flags = [] → calculateIntegrityScore s = 100) := by
  refine ⟨rfl, fun h₁ h₂ => ?_, fun h => ?_, ?_, fun h => ?_⟩
  · simp [completeSession, h₁, h₂]
  · have hne : ¬(s.status ≠ .active ∧ s.status ≠ .flagged) := by tauto
    simp only [completeSession, if_neg hne]
  · unfold calculateIntegrityScore flagCount
    by_cases hf : s.flags.isEmpty
    · rw [if_pos hf]
      rw [List.isEmpty_iff] at hf
      simp [hf, sevCount]
    · rw [if_neg hf, flag_fold_counts s.flags 0, zero_add]
  · simp [calculateIntegrityScore, h]

/-- Witness for C3: completing an active flagless session yields
integrity 100; completing one with two prior warning flags yields 80. -/
theorem c3_complete_session_spec_witness :
    completeSession (some baseSession) none 50 =
      (true, none, some { baseSession with
        status := .completed
        endedAt := some 50
        integrityScore := some 100
        proctorNotes := none }) ∧
    completeSession (some sessionTwoWarnings) none 99 =
      (true, none, some { sessionTwoWarnings with
        status := .completed
        endedAt := some 99
        integrityScore := some 80
        proctorNotes := none }) := by
  have h₁ := (c3_complete_session_spec baseSession none 50).2.2.1 (Or.inl rfl)
  have h₂ := (c3_complete_session_spec sessionTwoWarnings none 99).2.2.1 (Or.inl rfl)
  rw [h₁, h₂]
  exact ⟨by decide, by decide⟩

/-- C6: `validate_active_session` fails whenever the status is not
ACTIVE; an ACTIVE session past its `max_duration_minutes` budget fails,
transitions to INVALIDATED and gets a critical flag appended (so a
started session with a zero-minute budget fails this way as soon as any
time has elapsed); within the limit, IP or user-agent mismatches against
the stored values append warning flags but the call succeeds and the
session stays ACTIVE. -/
theorem c6_validate_active_spec (s : ProctoredSession) (b : BrowserInfo) (now : Int) :
    validateActiveSession none b now = (false, some "Invalid session token", none) ∧
    (s.status ≠ .active →
      validateActiveSession (some s) b now =
        (false, some "Session is not active", some s)) ∧
    (s.status = .active → now - s.startedAt > s.maxDurationMinutes * 60 →
      validateActiveSession (some s) b now =
        (false, some "Session time limit exceeded",
         some { s with
           status := .invalidated
           flags := s.flags ++ [⟨"TIME_LIMIT_EXCEEDED", "critical",
             "Submission attempted after time limit", now⟩] })) ∧
    (s.status = .active → s.maxDurationMinutes = 0 → now - s.startedAt > 0 →
      (validateActiveSession (some s) b now).1 = false ∧
      (validateActiveSession (some s) b now).2.2 =
        some { s with
          status := .invalidated
          flags := s.flags ++ [⟨"TIME_LIMIT_EXCEEDED", "critical",
            "Submission attempted after time limit", now⟩] }) ∧
    (s.status = .active → ¬(now - s.startedAt > s.maxDurationMinutes * 60) →
      validateActiveSession (some s) b now =
        (true, none, some { s with flags := s.flags ++
          (if ipMismatch s b then
            [⟨"IP_ADDRESS_CHANGED", "warning", "IP changed", now⟩] else []) ++
          (if uaMismatch s b then
            [⟨"USER_AGENT_CHANGED", "warning",
              "Browser user agent changed during session", now⟩] else []) })) := by
  have hexp : s.status = .active → now - s.startedAt > s.maxDurationMinutes * 60 →
      validateActiveSession (some s) b now =
        (false, some "Session time limit exceeded",
         some { s with
           status := .invalidated
           flags := s.flags ++ [⟨"TIME_LIMIT_EXCEEDED", "critical",
             "Submission attempted after time limit", now⟩] }) := by
    intro h₁ h₂
    simp [validateActiveSession, addFlag, h₁, h₂]
  refine ⟨rfl, fun h₁ => ?_, hexp, fun h₁ h₀ hel => ?_, fun h₁ h₂ => ?_⟩
  · simp [validateActiveSession, h₁]
  · have h₂ : now - s.startedAt > s.maxDurationMinutes * 60 := by omega
    rw [hexp h₁ h₂]
    exact ⟨rfl, rfl⟩
  · rw [validateActiveSession, if_neg (by simp [h₁]), if_neg h₂,
      validateWarnFlags_eq]

/-- Witness for C6: a zero-budget started session is invalidated with a
critical flag one second in; a user-agent mismatch within the limit
produces a warning flag but the call succeeds with the session still
ACTIVE. -/
theorem c6_validate_active_spec_witness :
    validateActiveSession (some expiredSession) matchingBrowser 1 =
      (false, some "Session time limit exceeded",
       some { expiredSession with
         status := .invalidated
         flags := [⟨"TIME_LIMIT_EXCEEDED", "critical",
           "Submission attempted after time limit", 1⟩] }) ∧
    validateActiveSession (some baseSession) otherUABrowser 5 =
      (true, none, some { baseSession with
        flags := [⟨"USER_AGENT_CHANGED", "warning",
          "Browser user agent changed during session", 5⟩] }) := by
  have h₁ := (c6_validate_active_spec expiredSession matchingBrowser 1).2.2.1
    rfl (by decide)
  have h₂ := (c6_validate_active_spec baseSession otherUABrowser 5).2.2.2.2
    rfl (by decide)
  rw [h₁, h₂]
  exact ⟨by decide, by decide⟩

/-- C7: the canonical solution hash is invariant under reordering of
object keys and separates differing canonical content; the diversity
check fails as an exact duplicate exactly when some other user's stored
best solution hashes equally, fails as too-similar when (absent exact
duplicates) more than two stored solutions reach the similarity
threshold, and passes otherwise. -/
theorem c7_solution_hash_and_diversity :
    (∀ (kvs₁ kvs₂ : List (String × Json)), kvs₁.Perm kvs₂ →
      (kvs₁.map Prod.fst).Nodup →
      compute_solution_hash (.obj kvs₁) = compute_solution_hash (.obj kvs₂)) ∧
    compute_solution_hash (.obj [("a", .num 1), ("b", .num 2)]) =
      compute_solution_hash (.obj [("b", .num 2), ("a", .num 1)]) ∧
    (∀ s₁ s₂ : Json, canonical s₁ ≠ canonical s₂ →
      compute_solution_hash s₁ ≠ compute_solution_hash s₂) ∧
    (∀ (db : DB) (userId levelId : Nat) (solution : Json) (θ : ℚ),
      ((∃ sol ∈ comparedSolutions db userId levelId,
          compute_solution_hash sol = compute_solution_hash solution) →
        (checkSolutionDiversity db userId levelId solution θ).1 = false ∧
        (checkSolutionDiversity db userId levelId solution θ).2.1 =
          some "This exact solution has been submitted by other student(s).") ∧
      ((∀ sol ∈ comparedSolutions db userId levelId,
          compute_solution_hash sol ≠ compute_solution_hash solution) →
        (((comparedSolutions db userId levelId).filter
            (fun sol => decide (θ ≤ computeSolutionSimilarity solution sol))).length
              > 2 →
          (checkSolutionDiversity db userId levelId solution θ).1 = false ∧
          (checkSolutionDiversity db userId levelId solution θ).2.1 =
            some "This solution is very similar to other submissions.") ∧
        (((comparedSolutions db userId levelId).filter
            (fun sol => decide (θ ≤ computeSolutionSimilarity solution sol))).length
              ≤ 2 →
          (checkSolutionDiversity db userId levelId solution θ).1 = true ∧
          (checkSolutionDiversity db userId levelId solution θ).2.1 = none))) := by
  have hperm_inv : ∀ (kvs₁ kvs₂ : List (String × Json)), kvs₁.Perm kvs₂ →
      (kvs₁.map Prod.fst).Nodup →
      compute_solution_hash (.obj kvs₁) = compute_solution_hash (.obj kvs₂) := by
    intro kvs₁ kvs₂ hp hnd
    have hperm : (canonicalKVs kvs₁).Perm (canonicalKVs kvs₂) := by
      rw [canonicalKVs_eq_map, canonicalKVs_eq_map]
      exact hp.map _
    have hkeys : ((canonicalKVs kvs₁).map Prod.fst).Nodup := by
      rw [canonicalKVs_eq_map, List.map_map]
      exact hnd
    show Json.obj (sortKVs (canonicalKVs kvs₁)) = Json.obj (sortKVs (canonicalKVs kvs₂))
    exact congrArg Json.obj (sortKVs_eq_of_perm hperm hkeys)
  refine ⟨hperm_inv,
    hperm_inv _ _ (List.Perm.swap ("b", Json.num 2) ("a", Json.num 1) []) (by decide),
    fun s₁ s₂ h hc => h hc,
    fun db userId levelId solution θ => ?_⟩
  · constructor
    · rintro ⟨sol, hmem, hhash⟩
      have hpos : 0 < ((comparedSolutions db userId levelId).filter (fun sol =>
          compute_solution_hash sol == compute_solution_hash solution)).length :=
        List.length_pos.mpr (List.ne_nil_of_mem
          (List.mem_filter.mpr ⟨hmem, by simp [hhash]⟩))
      simp only [checkSolutionDiversity]
      rw [if_pos hpos]
      exact ⟨rfl, rfl⟩
    · intro hnone
      have hzero : ((comparedSolutions db userId levelId).filter (fun sol =>
          compute_solution_hash sol == compute_solution_hash solution)).length = 0 := by
        rw [List.length_eq_zero]
        exact List.filter_eq_nil_iff.mpr (fun sol hmem => by simp [hnone sol hmem])
      have hfiltereq : (comparedSolutions db userId levelId).filter (fun sol =>
            compute_solution_hash sol != compute_solution_hash solution &&
              decide (θ ≤ computeSolutionSimilarity solution sol)) =
          (comparedSolutions db userId levelId).filter (fun sol =>
            decide (θ ≤ computeSolutionSimilarity solution sol)) :=
        List.filter_congr (fun sol hmem => by simp [hnone sol hmem])
      constructor
      · intro hgt
        simp only [checkSolutionDiversity]
        rw [if_neg (by omega), hfiltereq, if_pos hgt]
        exact ⟨rfl, rfl⟩
      · intro hle
        simp only [checkSolutionDiversity]
        rw [if_neg (by omega), hfiltereq, if_neg (by omega)]
        exact ⟨rfl, rfl⟩

/-- Witness for C7: the hash of the reordered two-key object matches via
the permutation conjunct, and a byte-identical stored solution of
another user trips the exact-duplicate failure. -/
theorem c7_solution_hash_and_diversity_witness :
    compute_solution_hash (.obj [("a", .num 1), ("b", .num 2)]) =
      compute_solution_hash (.obj [("b", .num 2), ("a", .num 1)]) ∧
    (checkSolutionDiversity dbDiversity 7 21 divSolution (95 / 100)).1 = false ∧
    (checkSolutionDiversity dbDiversity 7 21 divSolution (95 / 100)).2.1 =
      some "This exact solution has been submitted by other student(s)." := by
  have hhash := c7_solution_hash_and_diversity.1
    [("a", Json.num 1), ("b", Json.num 2)] [("b", Json.num 2), ("a", Json.num 1)]
    (List.Perm.swap ("b", Json.num 2) ("a", Json.num 1) []) (by decide)
  have hdup := (c7_solution_hash_and_diversity.2.2.2 dbDiversity 7 21
    divSolution (95 / 100)).1
    ⟨Json.obj [("answer", .str "balanced")], by decide, by decide⟩
  exact ⟨hhash, hdup.1, hdup.2⟩

/-- C9: for fixed user and level ids under the `"static"` rotation, two
independently constructed generators are byte-for-byte identical —
whatever the date, ISO-week or timestamp tokens — with the seed equal to
the first 8 bytes, big-endian, of the SHA-256 digest of the
`":"`-joined user/level string, so every identical sequence of
`random_int`/`random_choice`/`random_sample`/`shuffle` calls produces
identical outputs; `shuffle` returns a fresh list holding a permutation
of its (unmodified) input. -/
theorem c9_seed_determinism :
    (∀ u l t₁ w₁ n₁ t₂ w₂ n₂ : String,
      mkGenerator u l .static t₁ w₁ n₁ = mkGenerator u l .static t₂ w₂ n₂) ∧
    (∀ u l t w n : String,
      (mkGenerator u l .static t w n).seed =
        fromBytesBE ((sha256 (strBytes (u ++ ":" ++ l))).take 8)) ∧
    (∀ (u l t₁ w₁ n₁ t₂ w₂ n₂ : String) (ops : List SeedOp),
      runOps (mkGenerator u l .static t₁ w₁ n₁) ops =
        runOps (mkGenerator u l .static t₂ w₂ n₂) ops) ∧
    (∀ (g : ChallengeSeedGenerator) (items : List Int),
      List.Perm (g.shuffle items).1 items) := by
  refine ⟨fun u l t₁ w₁ n₁ t₂ w₂ n₂ => rfl, fun u l t w n => rfl,
    fun u l t₁ w₁ n₁ t₂ w₂ n₂ ops => rfl, fun g items => ?_⟩
  exact mtShuffle_perm g.rng items

/-- Witness for C10: a concrete unknown gate is skipped, and appending
four unknown names to `["H"]` keeps the final state but drops the score. -/
theorem c10_unknown_gates_skipped_but_counted_witness :
    applyGate (.str "|0⟩") (.str "FOO") = .str "|0⟩" ∧
    applyGates (.str "|+⟩") ([.str "Z"] ++ [.str "WOBBLE"]) =
      applyGates (.str "|+⟩") [.str "Z"] ∧
    (scoreGatePuzzle gpConfig gpSolutionHJunk 100).1 = 60 := by
  have h := c10_unknown_gates_skipped_but_counted
  exact ⟨h.1 (.str "|0⟩") (.str "FOO") (by decide) (by decide) (by decide) (by decide),
    h.2.1 (.str "|+⟩") [.str "Z"] [.str "WOBBLE"]
      (by intro g hg; simp at hg; subst hg; refine ⟨by decide, by decide, by decide, by decide⟩),
    h.2.2.2.2.1⟩

end QG
